import Mathlib

/-!
Verification of the complexity-inference pipeline of the
Algorithmic-Complexity-Analyzer repository.

The Python sources under `src/analyzer/` (recursion.py, recurrence.py,
case_analyzer.py, patterns.py, complexity.py) and
`src/app/services/analysis_service.py` are embedded shallowly below:

* the dict-based AST produced by `parser/parser.py` becomes the inductive
  type `Node` (children are listed in the dict-key insertion order used by
  the parser, which is the order `node.values()` iterates in Python);
* every analysis routine becomes a computable Lean function with the same
  name (camel-cased);
* Python `float` values reached by the analyses are modelled as `ℚ`
  (every float computation actually performed on the inputs exercised in
  this file is exact, see the doc comments of `logRatio`);
* Python code that can raise an exception is modelled with
  `Except String`.
-/

namespace AlgoAnalyzer

/-- Models Python `str.lower()` (ASCII inputs only are ever used). -/
def strLower (s : String) : String := String.mk (s.data.map Char.toLower)

/-- Models the Python substring test `pat in s`. -/
def strContains (s pat : String) : Bool :=
  s.data.tails.any (fun t => pat.data.isPrefixOf t)

/-- Models Python `str.strip()` (whitespace removal from both ends). -/
def pyStrip (s : String) : String :=
  String.mk
    (((s.data.dropWhile Char.isWhitespace).reverse.dropWhile Char.isWhitespace).reverse)

/-- Whether a string is empty. -/
def pyIsEmpty (s : String) : Bool := s.data.isEmpty

/-- Models Python `str.startswith(pat)`. -/
def pyStartsWith (s pat : String) : Bool := pat.data.isPrefixOf s.data

/-- Character-list worker for `pyReplace` (leftmost non-overlapping
occurrences of the nonempty pattern; `skip` consumes the tail of a
matched occurrence). -/
def replaceAux (pat repl : List Char) (skip : ℕ) : List Char → List Char
  | [] => []
  | c :: rest =>
    match skip with
    | k + 1 => replaceAux pat repl k rest
    | 0 =>
      if pat.isPrefixOf (c :: rest) then
        repl ++ replaceAux pat repl (pat.length - 1) rest
      else c :: replaceAux pat repl 0 rest

/-- Models Python `s.replace(pat, repl)` (all occurrences; the empty
pattern never occurs in this pipeline). -/
def pyReplace (s pat repl : String) : String :=
  match pat.data with
  | [] => s
  | p :: ps => String.mk (replaceAux (p :: ps) repl.data 0 s.data)

/-- Character-list worker for `pySplitOn` (nonempty separator). -/
def splitOnAux (pat : List Char) (skip : ℕ) (cur : List Char) :
    List Char → List (List Char)
  | [] => [cur.reverse]
  | c :: rest =>
    match skip with
    | k + 1 => splitOnAux pat k cur rest
    | 0 =>
      if pat.isPrefixOf (c :: rest) then
        cur.reverse :: splitOnAux pat (pat.length - 1) [] rest
      else splitOnAux pat 0 (c :: cur) rest

/-- Models Python `s.split(sep)` for a nonempty separator. -/
def pySplitOn (s sep : String) : List String :=
  match sep.data with
  | [] => [s]
  | p :: ps => (splitOnAux (p :: ps) 0 [] s.data).map String.mk

/-- Parses a nonempty all-digit string as a natural number. -/
def parseDigits (s : String) : Option ℕ :=
  if pyIsEmpty s then none
  else
    s.data.foldl
      (fun acc c =>
        match acc with
        | none => none
        | some v => if c.isDigit then some (v * 10 + (c.toNat - 48)) else none)
      (some 0)

/-- Models Python `float(s)` on the decimal literals produced by this
pipeline (`"2"`, `"2.5"`, ...); other float syntax (signs, exponents) never
occurs in the strings this code parses and is mapped to `none` like a
`ValueError`. -/
def parseFloatQ (s : String) : Option ℚ :=
  let t := pyStrip s
  match pySplitOn t "." with
  | [a] => (parseDigits a).map (fun v => (v : ℚ))
  | [a, b] =>
    if pyIsEmpty a then (parseDigits b).map (fun v => (v : ℚ) / 10 ^ b.length)
    else
      match parseDigits a, pyIsEmpty b, parseDigits b with
      | some ia, true, _ => some (ia : ℚ)
      | some ia, false, some ib => some ((ia : ℚ) + (ib : ℚ) / 10 ^ b.length)
      | _, _, _ => none
  | _ => none

/-- Renders a rational the way Python prints the numbers reached here
(integers without a decimal point; the float-typed branches of the source
are never exercised by the theorems below). -/
def qRender (q : ℚ) : String :=
  if q.den = 1 then toString q.num else toString q

/-- Models Python `f"{c:.2f}"` (round-half-up at two decimals; this
formatting only occurs in branches never reached by the theorems below). -/
def fmt2dp (q : ℚ) : String :=
  let i : ℤ := round (q * 100)
  let whole := i / 100
  let frac := (i % 100).natAbs
  let fracStr := if frac < 10 then "0" ++ toString frac else toString frac
  toString whole ++ "." ++ fracStr

/-! ## `recurrence.py`: `RecurrenceRelation`, `RecurrenceSolution`, solving -/

/-- `RecurrenceRelation` dataclass of `src/analyzer/recurrence.py`. -/
structure RecurrenceRelation where
  a : ℤ
  b : ℤ
  f_complexity : String
  reduction_type : String
deriving Repr, DecidableEq

/-- `RecurrenceRelation.__str__`. -/
def RecurrenceRelation.str (r : RecurrenceRelation) : String :=
  let sa := toString r.a
  let sb := toString r.b
  let sf := r.f_complexity
  if r.reduction_type == "divide" then
    s!"T(n) = {sa}T(n/{sb}) + O({sf})"
  else
    s!"T(n) = {sa}T(n-{sb}) + O({sf})"

/-- `RecurrenceSolution` dataclass of `src/analyzer/recurrence.py`. -/
structure RecurrenceSolution where
  relation : String
  complexity : String
  method : String
  explanation : String
deriving Repr, DecidableEq

/-- `RecurrenceSolver._get_polynomial_degree`: extracts the polynomial
degree of the `f(n)` label, `none` standing for Python `None`. -/
def getPolynomialDegree (f : String) : Option ℚ :=
  let s := strLower (pyStrip f)
  if s == "1" then some 0
  else if s == "n" then some 1
  else if strContains s "^" then
    match (pySplitOn s "^").drop 1 with
    | exp :: _ => parseFloatQ exp
    | [] => none
  else none

/-- Models `c = math.log(a) / math.log(b)` in
`RecurrenceSolver._solve_divide_and_conquer`.  The value is exact whenever
`a` is a power of `b`; every recurrence solved in this development has
`(a, b)` among `(1, 2)` and `(2, 2)`, where the floating-point quotient is
also exact (`0.0` and `1.0`). -/
def logRatio (a b : ℤ) : ℚ :=
  if a = 1 then 0 else (Nat.log b.natAbs a.natAbs : ℚ)

/-- `RecurrenceSolver._solve_divide_and_conquer`: Master-Theorem solving of
`T(n) = aT(n/b) + f(n)`. -/
def solveDivideAndConquer (rec : RecurrenceRelation) : RecurrenceSolution :=
  let a := rec.a
  let b := rec.b
  let f := rec.f_complexity
  let c : ℚ := logRatio a b
  let sa := toString a
  let sb := toString b
  let sf := f
  let relationStr := s!"T(n) = {sa}T(n/{sb}) + O({sf})"
  let sc := fmt2dp c
  match getPolynomialDegree f with
  | some fdeg =>
    let sd := qRender fdeg
    if fdeg < c then
      let complexity :=
        if |c - (⌊c⌋ : ℚ)| < 1/100 then
          if ⌊c⌋ = 0 then "1"
          else if ⌊c⌋ = 1 then "n"
          else let ic := toString ⌊c⌋; s!"n^{ic}"
        else s!"n^{sc}"
      let co := complexity
      { relation := relationStr
        complexity := s!"O({co})"
        method := "Master Theorem - Caso 1"
        explanation :=
          s!"Master Theorem - Caso 1:\n  a = {sa}, b = {sb}, c = log_{sb}({sa}) = {sc}\n  f(n) = O(n^{sd}) < O(n^{sc})\n  Por tanto: T(n) = Θ({co})" }
    else if |fdeg - c| < 1/100 then
      let complexity :=
        if |c| < 1/100 then "log(n)"
        else if |c - 1| < 1/100 then "n * log(n)"
        else if |c - (⌊c⌋ : ℚ)| < 1/100 then
          if ⌊c⌋ = 0 then "log(n)"
          else if ⌊c⌋ = 1 then "n * log(n)"
          else let ic := toString ⌊c⌋; s!"n^{ic} * log(n)"
        else s!"n^{sc} * log(n)"
      let co := complexity
      { relation := relationStr
        complexity := s!"O({co})"
        method := "Master Theorem - Caso 2"
        explanation :=
          s!"Master Theorem - Caso 2:\n  a = {sa}, b = {sb}, c = log_{sb}({sa}) = {sc}\n  f(n) = Θ(n^{sd}) = Θ(n^{sc})\n  Por tanto: T(n) = Θ({co})" }
    else
      let complexity :=
        if |fdeg| < 1/100 then "1"
        else if |fdeg - 1| < 1/100 then "n"
        else if |fdeg - (⌊fdeg⌋ : ℚ)| < 1/100 then
          let idg := toString ⌊fdeg⌋; s!"n^{idg}"
        else s!"n^{sd}"
      let co := complexity
      { relation := relationStr
        complexity := s!"O({co})"
        method := "Master Theorem - Caso 3"
        explanation :=
          s!"Master Theorem - Caso 3:\n  a = {sa}, b = {sb}, c = log_{sb}({sa}) = {sc}\n  f(n) = Ω(n^{sd}) > Ω(n^{sc})\n  f(n) domina, por tanto: T(n) = Θ({co})" }
  | none =>
    if strContains f "log" then
      if a = b then
        { relation := relationStr
          complexity := "O(n * log^2(n))"
          method := "Master Theorem - Caso especial"
          explanation :=
            s!"Caso especial: a = b = {sa}\n  T(n) = {sa}T(n/{sa}) + O(n*log n)\n  Por tanto: T(n) = O(n * log^2 n)" }
      else
        { relation := relationStr
          complexity := "O(n * log(n))"
          method := "Master Theorem - Caso especial"
          explanation := "T(n) ≈ O(n * log n) (estimación)" }
    else
      { relation := relationStr
        complexity := "O(n * log n)"
        method := "Master Theorem (estimado)"
        explanation := "Relación compleja, estimación conservadora" }

/-- `RecurrenceSolver._solve_linear_recursion`: direct expansion of
`T(n) = aT(n-b) + f(n)`.  The branches in which the Python code would
raise a `TypeError` (arithmetic on a `None` degree) are mapped to
`Except.error`. -/
def solveLinearRecursion (rec : RecurrenceRelation) : Except String RecurrenceSolution :=
  let a := rec.a
  let b := rec.b
  let f := rec.f_complexity
  let sa := toString a
  let sb := toString b
  let sf := f
  let relationStr := s!"T(n) = {sa}T(n-{sb}) + O({sf})"
  let fdeg := getPolynomialDegree f
  let mk := fun (complexity explanation : String) =>
    RecurrenceSolution.mk relationStr s!"O({complexity})" "Expansión directa" explanation
  if a = 1 then
    match fdeg with
    | some d =>
      if d = 0 then
        .ok (mk "n"
          "Recursión lineal simple:\n  T(n) = T(n-1) + O(1)\n  Se expande a: 1 + 1 + 1 + ... (n veces)\n  Por tanto: T(n) = O(n)")
      else if d = 1 then
        .ok (mk "n^2"
          "Recursión con costo lineal:\n  T(n) = T(n-1) + O(n)\n  Se expande a: n + (n-1) + (n-2) + ... + 1\n  Suma aritmética = n(n+1)/2\n  Por tanto: T(n) = O(n^2)")
      else
        let sd := qRender d
        let sd1 := qRender (d + 1)
        .ok (mk s!"n^{sd1}"
          s!"Recursión con costo polinómico:\n  T(n) = T(n-1) + O(n^{sd})\n  Por tanto: T(n) = O(n^{sd1})")
    | none => .error "TypeError: unsupported operand type(s) for +: NoneType and int"
  else if a = 2 then
    match fdeg with
    | some d =>
      if d = 0 then
        .ok (mk "2^n"
          "Recursión exponencial:\n  T(n) = 2T(n-1) + O(1)\n  Árbol binario de altura n\n  Nodos totales = 2^n\n  Por tanto: T(n) = O(2^n)")
      else
        let complexity :=
          if d = 1 then "n * 2^n"
          else if |d - (⌊d⌋ : ℚ)| < 1/100 then
            let idg := toString ⌊d⌋; s!"n^{idg} * 2^n"
          else let sd := qRender d; s!"n^{sd} * 2^n"
        let sd := qRender d
        let co := complexity
        .ok (mk complexity
          s!"Recursión exponencial con costo adicional:\n  T(n) = 2T(n-1) + O(n^{sd})\n  Por tanto: T(n) = O({co})")
    | none => .error "TypeError: bad operand type for abs(): NoneType"
  else
    match fdeg with
    | some d =>
      if d = 0 then
        .ok (mk s!"{sa}^n"
          s!"Recursión con factor {sa}:\n  T(n) = {sa}T(n-1) + O(1)\n  Por tanto: T(n) = O({sa}^n)")
      else
        let complexity :=
          if d = 1 then s!"n * {sa}^n"
          else if |d - (⌊d⌋ : ℚ)| < 1/100 then
            let idg := toString ⌊d⌋; s!"n^{idg} * {sa}^n"
          else let sd := qRender d; s!"n^{sd} * {sa}^n"
        let sd := qRender d
        let co := complexity
        .ok (mk complexity
          s!"Recursión con factor {sa} y costo adicional:\n  T(n) = {sa}T(n-1) + O(n^{sd})\n  Por tanto: T(n) = O({co})")
    | none => .error "TypeError: bad operand type for abs(): NoneType"

/-- `RecurrenceSolver.solve`: dispatch on the reduction type. -/
def solve (rec : RecurrenceRelation) : Except String RecurrenceSolution :=
  if rec.reduction_type == "divide" then .ok (solveDivideAndConquer rec)
  else if rec.reduction_type == "subtract" then solveLinearRecursion rec
  else
    .ok { relation := rec.str
          complexity := "O(?)"
          method := "Unknown"
          explanation := "Tipo de recursión no reconocido" }

/-! ## The AST

`parser/parser.py` produces dict-based nodes tagged with a `"type"` key.
Each dict shape becomes one constructor; child order mirrors the dict-key
insertion order of the parser (the order `node.values()` iterates). -/

/-- AST node (tagged union), one constructor per parser node shape used by
the analyses.  `"call"` (statement) and `"call_expr"` (expression) are kept
distinct exactly as in the parser. -/
inductive Node where
  | num (v : ℤ)
  | boolLit (b : Bool)
  | strLit (s : String)
  | var (name : String)
  | binop (op : String) (left right : Node)
  | callE (name : String) (args : List Node)
  | callS (name : String) (args : List Node)
  | assign (target expr : Node)
  | ret (expr : Option Node)
  | varDecl (name : String)
  | block (body : List Node)
  | ifS (cond thenB : Node) (elseB : Option Node)
  | forS (v : String) (start stop body : Node)
  | whileS (cond body : Node)
  | repeatS (body : List Node) (cond : Node)
  | arrayAccess (arr idx : Node)
  | lengthE (arg : Node)

/-- A `procedure_decl` node (`{"type": "procedure_decl", name, params, body}`). -/
structure Proc where
  name : String
  params : List String
  body : Node

/-- A `program` node (only the keys the analyses read). -/
structure Program where
  procedures : List Proc
  body : List Node

/-! ## `recursion.py`: `RecursionDetector` -/

/-- `RecursionInfo` dataclass of `src/analyzer/recursion.py`. -/
structure RecursionInfo where
  is_recursive : Bool
  recursion_type : String
  call_count : ℕ
  calls_to : List String
  depth_pattern : String
  subproblem : String := "unknown"
  has_combining_work : Bool := false
deriving Repr, DecidableEq

mutual
/-- `RecursionDetector._find_all_calls`: every `"call"`/`"call_expr"` name
in the subtree, duplicates preserved (the matched node's own values are
traversed as well, exactly as in the Python generic `node.values()` walk). -/
def findAllCallsN : Node → List String
  | .num _ => []
  | .boolLit _ => []
  | .strLit _ => []
  | .var _ => []
  | .binop _ l r => findAllCallsN l ++ findAllCallsN r
  | .callE name args => name :: findAllCallsL args
  | .callS name args => name :: findAllCallsL args
  | .assign t e => findAllCallsN t ++ findAllCallsN e
  | .ret none => []
  | .ret (some e) => findAllCallsN e
  | .varDecl _ => []
  | .block body => findAllCallsL body
  | .ifS c t none => findAllCallsN c ++ findAllCallsN t
  | .ifS c t (some e) => findAllCallsN c ++ findAllCallsN t ++ findAllCallsN e
  | .forS _ s e b => findAllCallsN s ++ findAllCallsN e ++ findAllCallsN b
  | .whileS c b => findAllCallsN c ++ findAllCallsN b
  | .repeatS body c => findAllCallsL body ++ findAllCallsN c
  | .arrayAccess a i => findAllCallsN a ++ findAllCallsN i
  | .lengthE e => findAllCallsN e

/-- List part of `_find_all_calls`. -/
def findAllCallsL : List Node → List String
  | [] => []
  | x :: xs => findAllCallsN x ++ findAllCallsL xs
end

mutual
/-- `RecursionDetector._count_recursive_calls_in_body`: occurrences of
self-named `"call"`/`"call_expr"` nodes (children of a match are also
visited). -/
def countRecN (p : String) : Node → ℕ
  | .num _ => 0
  | .boolLit _ => 0
  | .strLit _ => 0
  | .var _ => 0
  | .binop _ l r => countRecN p l + countRecN p r
  | .callE name args => (if name == p then 1 else 0) + countRecL p args
  | .callS name args => (if name == p then 1 else 0) + countRecL p args
  | .assign t e => countRecN p t + countRecN p e
  | .ret none => 0
  | .ret (some e) => countRecN p e
  | .varDecl _ => 0
  | .block body => countRecL p body
  | .ifS c t none => countRecN p c + countRecN p t
  | .ifS c t (some e) => countRecN p c + countRecN p t + countRecN p e
  | .forS _ s e b => countRecN p s + countRecN p e + countRecN p b
  | .whileS c b => countRecN p c + countRecN p b
  | .repeatS body c => countRecL p body + countRecN p c
  | .arrayAccess a i => countRecN p a + countRecN p i
  | .lengthE e => countRecN p e

/-- List part of `_count_recursive_calls_in_body`. -/
def countRecL (p : String) : List Node → ℕ
  | [] => 0
  | x :: xs => countRecN p x + countRecL p xs
end

mutual
/-- `RecursionDetector._find_recursive_call_nodes`: the self-named call
nodes themselves. -/
def findRecCallNodesN (p : String) : Node → List Node
  | .num _ => []
  | .boolLit _ => []
  | .strLit _ => []
  | .var _ => []
  | .binop _ l r => findRecCallNodesN p l ++ findRecCallNodesN p r
  | .callE name args =>
    (if name == p then [Node.callE name args] else []) ++ findRecCallNodesL p args
  | .callS name args =>
    (if name == p then [Node.callS name args] else []) ++ findRecCallNodesL p args
  | .assign t e => findRecCallNodesN p t ++ findRecCallNodesN p e
  | .ret none => []
  | .ret (some e) => findRecCallNodesN p e
  | .varDecl _ => []
  | .block body => findRecCallNodesL p body
  | .ifS c t none => findRecCallNodesN p c ++ findRecCallNodesN p t
  | .ifS c t (some e) => findRecCallNodesN p c ++ findRecCallNodesN p t ++ findRecCallNodesN p e
  | .forS _ s e b => findRecCallNodesN p s ++ findRecCallNodesN p e ++ findRecCallNodesN p b
  | .whileS c b => findRecCallNodesN p c ++ findRecCallNodesN p b
  | .repeatS body c => findRecCallNodesL p body ++ findRecCallNodesN p c
  | .arrayAccess a i => findRecCallNodesN p a ++ findRecCallNodesN p i
  | .lengthE e => findRecCallNodesN p e

/-- List part of `_find_recursive_call_nodes`. -/
def findRecCallNodesL (p : String) : List Node → List Node
  | [] => []
  | x :: xs => findRecCallNodesN p x ++ findRecCallNodesL p xs
end

/-- The midpoint-assignment pattern of
`RecursionDetector._find_midpoint_variables`: `target = (x + y) DIV 2`-style
assignments (`expr` a `DIV`/`DIV_INT` binop whose left side is a `PLUS`
binop of two variables; the divisor is not inspected). -/
def midpointAssignTarget : Node → Node → List String
  | .var tname, .binop op (.binop lop (.var _) (.var _)) _ =>
    if (op == "DIV_INT" || op == "DIV") && lop == "PLUS" then [tname] else []
  | _, _ => []

mutual
/-- `RecursionDetector._find_midpoint_variables`: names assigned as
`(inicio + fin) / 2`-style midpoints (a set in Python; here a list used
only through membership). -/
def findMidVarsN : Node → List String
  | .num _ => []
  | .boolLit _ => []
  | .strLit _ => []
  | .var _ => []
  | .binop _ l r => findMidVarsN l ++ findMidVarsN r
  | .callE _ args => findMidVarsL args
  | .callS _ args => findMidVarsL args
  | .assign t e => midpointAssignTarget t e ++ findMidVarsN t ++ findMidVarsN e
  | .ret none => []
  | .ret (some e) => findMidVarsN e
  | .varDecl _ => []
  | .block body => findMidVarsL body
  | .ifS c t none => findMidVarsN c ++ findMidVarsN t
  | .ifS c t (some e) => findMidVarsN c ++ findMidVarsN t ++ findMidVarsN e
  | .forS _ s e b => findMidVarsN s ++ findMidVarsN e ++ findMidVarsN b
  | .whileS c b => findMidVarsN c ++ findMidVarsN b
  | .repeatS body c => findMidVarsL body ++ findMidVarsN c
  | .arrayAccess a i => findMidVarsN a ++ findMidVarsN i
  | .lengthE e => findMidVarsN e

/-- List part of `_find_midpoint_variables`. -/
def findMidVarsL : List Node → List String
  | [] => []
  | x :: xs => findMidVarsN x ++ findMidVarsL xs
end

/-- Argument-level evidence collection of
`RecursionDetector._infer_subproblem_from_proc` (the four pattern checks
run on every argument of a recursive call; the `slice`/`subarray` check can
never fire because the parser emits no such node kinds). -/
def subproblemEvidenceOfArg (midpointVars : List String) : Node → List String
  | .binop op l r =>
    (if (op == "DIV" || op == "DIV_INT") then
        match r with
        | .num v => if v = 2 then ["n/2"] else []
        | _ => []
      else []) ++
    (if (op == "MINUS" || op == "PLUS") then
        match l, r with
        | .var vname, .num v =>
          if midpointVars.contains vname && v = 1 then ["n/2"] else []
        | _, _ => []
      else []) ++
    (if op == "MINUS" then
        match r with
        | .num v => if v = 1 then ["n-1"] else []
        | _ => []
      else [])
  | .var vname => if midpointVars.contains vname then ["n/2"] else []
  | _ => []

/-- Arguments of a call node (`call.get('args', [])`). -/
def callArgs : Node → List Node
  | .callE _ args => args
  | .callS _ args => args
  | _ => []

/-- `RecursionDetector._infer_subproblem_from_proc`: infers the subproblem
descriptor (`"n/2"`, `"slice"`, `"n-1"` or `"unknown"`) from the arguments
of the self-recursive call sites. -/
def inferSubproblemFromProc (p : String) (body : Node) : String :=
  let midpointVars := findMidVarsN body
  let calls := findRecCallNodesN p body
  if calls.isEmpty then "unknown"
  else
    let evidence :=
      calls.flatMap fun c => (callArgs c).flatMap (subproblemEvidenceOfArg midpointVars)
    if evidence.contains "n/2" then "n/2"
    else if evidence.contains "slice" then "slice"
    else if evidence.contains "n-1" && !(evidence.contains "n/2") then "n-1"
    else "unknown"

mutual
/-- `RecursionDetector._is_tail_recursive`: every terminal statement
(last of a block, both branches of an `if`, the call itself) is a
self-call; other node kinds require all dict/list children to satisfy the
predicate, and a missing `else` (Python `None`) yields `False`. -/
def isTailRecN (p : String) : Node → Bool
  | .block body => isTailRecLast p body
  | .ifS _ t elseB =>
    isTailRecN p t &&
      (match elseB with
       | some e => isTailRecN p e
       | none => false)
  | .callE name _ => name == p
  | .callS name _ => name == p
  | .num _ => true
  | .boolLit _ => true
  | .strLit _ => true
  | .var _ => true
  | .varDecl _ => true
  | .binop _ l r => isTailRecN p l && isTailRecN p r
  | .assign t e => isTailRecN p t && isTailRecN p e
  | .ret none => true
  | .ret (some e) => isTailRecN p e
  | .forS _ s e b => isTailRecN p s && isTailRecN p e && isTailRecN p b
  | .whileS c b => isTailRecN p c && isTailRecN p b
  | .repeatS body c => isTailRecLast p body && isTailRecN p c
  | .arrayAccess a i => isTailRecN p a && isTailRecN p i
  | .lengthE e => isTailRecN p e

/-- List part of `_is_tail_recursive`: Python recurses into the *last*
element (`node[-1]`) and an empty list yields `False`. -/
def isTailRecLast (p : String) : List Node → Bool
  | [] => false
  | [x] => isTailRecN p x
  | _ :: xs => isTailRecLast p xs
end

/-- Whether a node is an `"array_access"` node. -/
def isArrayAccessNode : Node → Bool
  | .arrayAccess _ _ => true
  | _ => false

mutual
/-- `RecursionDetector._body_contains_array_copy`: inside a block, an
assignment whose target and expression are both array accesses. -/
def bodyCopyN : Node → Bool
  | .block stmts => bodyCopyBlock stmts
  | .num _ => false
  | .boolLit _ => false
  | .strLit _ => false
  | .var _ => false
  | .varDecl _ => false
  | .binop _ l r => bodyCopyN l || bodyCopyN r
  | .callE _ args => bodyCopyL args
  | .callS _ args => bodyCopyL args
  | .assign t e => bodyCopyN t || bodyCopyN e
  | .ret none => false
  | .ret (some e) => bodyCopyN e
  | .ifS c t none => bodyCopyN c || bodyCopyN t
  | .ifS c t (some e) => bodyCopyN c || bodyCopyN t || bodyCopyN e
  | .forS _ s e b => bodyCopyN s || bodyCopyN e || bodyCopyN b
  | .whileS c b => bodyCopyN c || bodyCopyN b
  | .repeatS body c => bodyCopyL body || bodyCopyN c
  | .arrayAccess a i => bodyCopyN a || bodyCopyN i
  | .lengthE e => bodyCopyN e

/-- Block part of `_body_contains_array_copy`: each statement is tested
for the assign-of-array-access pattern and then searched recursively. -/
def bodyCopyBlock : List Node → Bool
  | [] => false
  | st :: rest =>
    (match st with
     | .assign t e => (isArrayAccessNode t && isArrayAccessNode e) || bodyCopyN st
     | _ => bodyCopyN st) || bodyCopyBlock rest

/-- List part of `_body_contains_array_copy`. -/
def bodyCopyL : List Node → Bool
  | [] => false
  | x :: xs => bodyCopyN x || bodyCopyL xs
end

/-- Whether a condition node is an `AND` binop (merge main-loop signature). -/
def isAndCond : Node → Bool
  | .binop op _ _ => op == "AND"
  | _ => false

mutual
/-- `RecursionDetector._has_combining_work`: a `while` whose condition is
an `AND` conjunction or whose body copies between arrays (the node's
children are searched as well, as in the generic `node.values()` walk). -/
def hasCombiningN : Node → Bool
  | .whileS c b =>
    isAndCond c || bodyCopyN b || hasCombiningN c || hasCombiningN b
  | .num _ => false
  | .boolLit _ => false
  | .strLit _ => false
  | .var _ => false
  | .varDecl _ => false
  | .binop _ l r => hasCombiningN l || hasCombiningN r
  | .callE _ args => hasCombiningL args
  | .callS _ args => hasCombiningL args
  | .assign t e => hasCombiningN t || hasCombiningN e
  | .ret none => false
  | .ret (some e) => hasCombiningN e
  | .block body => hasCombiningL body
  | .ifS c t none => hasCombiningN c || hasCombiningN t
  | .ifS c t (some e) => hasCombiningN c || hasCombiningN t || hasCombiningN e
  | .forS _ s e b => hasCombiningN s || hasCombiningN e || hasCombiningN b
  | .repeatS body c => hasCombiningL body || hasCombiningN c
  | .arrayAccess a i => hasCombiningN a || hasCombiningN i
  | .lengthE e => hasCombiningN e

/-- List part of `_has_combining_work`. -/
def hasCombiningL : List Node → Bool
  | [] => false
  | x :: xs => hasCombiningN x || hasCombiningL xs
end

/-- Dict-style lookup with a default (`d.get(k, [])`). -/
def lookupGraph (graph : List (String × List String)) (k : String) : List String :=
  match graph.find? (fun e => e.1 == k) with
  | some e => e.2
  | none => []

/-- `RecursionDetector._has_cycle`: depth-first cycle search over the call
graph threading the (mutated, shared) `visited` set; the callee loop
short-circuits on a found cycle exactly as the Python `return True`.
`fuel` bounds the recursion depth; `procNames.length + 1` is always
sufficient because every non-leaf frame inserts a fresh name into
`visited`. -/
def hasCycleAux (graph : List (String × List String)) (procNames : List String) :
    ℕ → String → List String → List String → Bool × List String
  | 0, _, visited, _ => (false, visited)
  | fuel + 1, current, visited, path =>
    if visited.contains current then (path.contains current, visited)
    else
      (lookupGraph graph current).foldl
        (fun acc callee =>
          if acc.1 then acc
          else if procNames.contains callee then
            let r := hasCycleAux graph procNames fuel callee acc.2 (path ++ [callee])
            if r.1 then (true, r.2) else (false, r.2)
          else acc)
        (false, current :: visited)

/-- The call graph built by `RecursionDetector._build_call_graph`. -/
def buildCallGraph (procs : List Proc) : List (String × List String) :=
  procs.map fun p => (p.name, findAllCallsN p.body)

/-- The `RecursionInfo` computed for one procedure by
`RecursionDetector.analyze` (the phases `_detect_direct_recursion`,
`_detect_indirect_recursion`, `_detect_tail_recursion`,
`_analyze_depth_pattern` applied in order). -/
def analyzeProcInfo (procs : List Proc) (p : Proc) : RecursionInfo :=
  let names := procs.map (·.name)
  let graph := buildCallGraph procs
  let calls := findAllCallsN p.body
  let directCount := calls.count p.name
  let isDirect := directCount > 0
  let cyc :=
    if isDirect then false
    else (hasCycleAux graph names (names.length + 1) p.name [] [p.name]).1
  let isRec := isDirect || cyc
  let rtype0 : String := if isDirect then "direct" else if cyc then "indirect" else "none"
  let rtype := if isRec && isTailRecN p.name p.body then "tail" else rtype0
  let callCount := if isDirect then directCount else 0
  if isRec then
    let count := countRecN p.name p.body
    let sub := inferSubproblemFromProc p.name p.body
    let combine := hasCombiningN p.body
    let depth :=
      if count = 1 then
        if pyStartsWith sub "n/" then "divide_and_conquer" else "linear"
      else if count ≥ 2 then
        if pyStartsWith sub "n/" then "divide_and_conquer" else "tree"
      else "unknown"
    { is_recursive := isRec, recursion_type := rtype, call_count := callCount,
      calls_to := calls, depth_pattern := depth, subproblem := sub,
      has_combining_work := combine }
  else
    { is_recursive := isRec, recursion_type := rtype, call_count := callCount,
      calls_to := calls, depth_pattern := "unknown", subproblem := "unknown",
      has_combining_work := false }

/-- `RecursionDetector.analyze`: per-procedure `RecursionInfo` map. -/
def detectorAnalyze (prog : Program) : List (String × RecursionInfo) :=
  prog.procedures.map fun p => (p.name, analyzeProcInfo prog.procedures p)

/-! ## `recurrence.py`: building a relation from the AST -/

mutual
/-- `RecurrenceSolver._count_active_recursive_calls`: recursive-call count
treating `if/else` as mutually exclusive (branch maximum) and blocks as
additive.  Only statement-level `"call"` nodes count — `"call_expr"` nodes
fall into the generic children walk and contribute `0` themselves. -/
def countActiveN (p : String) : Node → ℕ
  | .ifS _ t elseB =>
    match elseB with
    | some e => max (countActiveN p t) (countActiveN p e)
    | none => countActiveN p t
  | .block body => countActiveL p body
  | .callS name args => if name == p then 1 else countActiveL p args
  | .callE _ args => countActiveL p args
  | .num _ => 0
  | .boolLit _ => 0
  | .strLit _ => 0
  | .var _ => 0
  | .varDecl _ => 0
  | .binop _ l r => countActiveN p l + countActiveN p r
  | .assign t e => countActiveN p t + countActiveN p e
  | .ret none => 0
  | .ret (some e) => countActiveN p e
  | .forS _ s e b => countActiveN p s + countActiveN p e + countActiveN p b
  | .whileS c b => countActiveN p c + countActiveN p b
  | .repeatS body c => countActiveL p body + countActiveN p c
  | .arrayAccess a i => countActiveN p a + countActiveN p i
  | .lengthE e => countActiveN p e

/-- List part of `_count_active_recursive_calls`. -/
def countActiveL (p : String) : List Node → ℕ
  | [] => 0
  | x :: xs => countActiveN p x + countActiveL p xs
end

mutual
/-- `RecurrenceSolver._find_recursive_calls`: collects every node whose
type is `"call"` (statement calls only — `"call_expr"` nodes are *not*
collected). -/
def findCallsSolverN : Node → List Node
  | .callS name args => Node.callS name args :: findCallsSolverL args
  | .callE _ args => findCallsSolverL args
  | .num _ => []
  | .boolLit _ => []
  | .strLit _ => []
  | .var _ => []
  | .varDecl _ => []
  | .binop _ l r => findCallsSolverN l ++ findCallsSolverN r
  | .assign t e => findCallsSolverN t ++ findCallsSolverN e
  | .ret none => []
  | .ret (some e) => findCallsSolverN e
  | .block body => findCallsSolverL body
  | .ifS c t none => findCallsSolverN c ++ findCallsSolverN t
  | .ifS c t (some e) => findCallsSolverN c ++ findCallsSolverN t ++ findCallsSolverN e
  | .forS _ s e b => findCallsSolverN s ++ findCallsSolverN e ++ findCallsSolverN b
  | .whileS c b => findCallsSolverN c ++ findCallsSolverN b
  | .repeatS body c => findCallsSolverL body ++ findCallsSolverN c
  | .arrayAccess a i => findCallsSolverN a ++ findCallsSolverN i
  | .lengthE e => findCallsSolverN e

/-- List part of `_find_recursive_calls`. -/
def findCallsSolverL : List Node → List Node
  | [] => []
  | x :: xs => findCallsSolverN x ++ findCallsSolverL xs
end

/-- `RecurrenceSolver._is_midpoint_variable`: hard-coded midpoint variable
names. -/
def isMidpointVariable (varName : String) : Bool :=
  ["medio", "mid", "mitad", "middle", "m"].contains (strLower varName)

/-- One argument's reduction evidence in
`RecurrenceSolver._analyze_reduction_from_calls` (the first matching
argument wins). -/
def reductionOfArg : Node → Option (String × ℤ)
  | .binop op l r =>
    if op == "MINUS" || op == "PLUS" then
      match l with
      | .var vname => if isMidpointVariable vname then some ("divide", 2) else none
      | _ => none
    else if op == "DIV" || op == "DIV_INT" then
      match r with
      | .num v => some ("divide", v)
      | _ => none
    else none
  | _ => none

/-- First `some` produced on a list (Python early `return` in a loop). -/
def firstSome {α β : Type} (f : α → Option β) : List α → Option β
  | [] => none
  | x :: xs =>
    match f x with
    | some r => some r
    | none => firstSome f xs

/-- `RecurrenceSolver._analyze_reduction_from_calls`: scans every found
call's arguments for a division-style reduction, defaulting to
`("subtract", 1)`.  Calls without arguments are skipped. -/
def analyzeReductionFromCalls (calls : List Node) : String × ℤ :=
  match firstSome (fun c => firstSome reductionOfArg (callArgs c)) calls with
  | some r => r
  | none => ("subtract", 1)

mutual
/-- Loop nesting probe of `RecurrenceSolver._quick_loop_check`: maximum
loop-nesting depth found (only loop bodies are descended from a loop
node). -/
def quickLoopDepthN (loopDepth : ℕ) : Node → ℕ
  | .forS _ _ _ b => max (loopDepth + 1) (quickLoopDepthN (loopDepth + 1) b)
  | .whileS _ b => max (loopDepth + 1) (quickLoopDepthN (loopDepth + 1) b)
  | .repeatS body _ => max (loopDepth + 1) (quickLoopDepthL (loopDepth + 1) body)
  | .num _ => 0
  | .boolLit _ => 0
  | .strLit _ => 0
  | .var _ => 0
  | .varDecl _ => 0
  | .binop _ l r => max (quickLoopDepthN loopDepth l) (quickLoopDepthN loopDepth r)
  | .callE _ args => quickLoopDepthL loopDepth args
  | .callS _ args => quickLoopDepthL loopDepth args
  | .assign t e => max (quickLoopDepthN loopDepth t) (quickLoopDepthN loopDepth e)
  | .ret none => 0
  | .ret (some e) => quickLoopDepthN loopDepth e
  | .block body => quickLoopDepthL loopDepth body
  | .ifS c t none => max (quickLoopDepthN loopDepth c) (quickLoopDepthN loopDepth t)
  | .ifS c t (some e) =>
    max (max (quickLoopDepthN loopDepth c) (quickLoopDepthN loopDepth t))
      (quickLoopDepthN loopDepth e)
  | .arrayAccess a i => max (quickLoopDepthN loopDepth a) (quickLoopDepthN loopDepth i)
  | .lengthE e => quickLoopDepthN loopDepth e

/-- List part of `_quick_loop_check`. -/
def quickLoopDepthL (loopDepth : ℕ) : List Node → ℕ
  | [] => 0
  | x :: xs => max (quickLoopDepthN loopDepth x) (quickLoopDepthL loopDepth xs)
end

/-- `RecurrenceSolver._quick_loop_check`. -/
def quickLoopCheck (body : Node) : Bool × ℕ :=
  let maxDepth := quickLoopDepthN 0 body
  (maxDepth > 0, maxDepth)

/-- `RecurrenceSolver._get_procedure_complexity`: loop-depth based cost
label for a callee, `"1"` for unknown procedures. -/
def getProcedureComplexity (procName : String) (procedures : List Proc) : String :=
  match procedures.find? (fun q => q.name == procName) with
  | some q =>
    let r := quickLoopCheck q.body
    if r.1 then
      if r.2 = 1 then "n"
      else if r.2 = 2 then "n^2"
      else let d := toString r.2; s!"n^{d}"
    else "1"
  | none => "1"

/-- `RecurrenceSolver._complexity_greater_than`: fixed label ordering,
unknown labels ranked like `"n"`. -/
def complexityGreaterThan (comp1 comp2 : String) : Bool :=
  let rank := fun (c : String) =>
    let c := strLower (pyStrip c)
    if c == "1" then 0
    else if c == "log(n)" then 1
    else if c == "sqrt(n)" then 2
    else if c == "n" then 3
    else if c == "n*log(n)" then 4
    else if c == "n^2" then 5
    else if c == "n^3" then 6
    else if c == "2^n" then 7
    else 3
  rank comp1 > rank comp2

/-- Accumulator state of `RecurrenceSolver._analyze_non_recursive_work_v2`
(the `nonlocal` variables of `analyze_node`). -/
structure WorkState where
  simpleOps : ℕ
  hasLoop : Bool
  maxNestedDepth : ℕ
  maxCalled : String
deriving Repr, DecidableEq

mutual
/-- Traversal of `RecurrenceSolver._analyze_non_recursive_work_v2`:
loops record nesting depth and only their bodies are descended;
top-level assignments are counted; non-recursive `"call"` statements
contribute callee cost; recursive `"call"` statements stop the descent.
`depth` is the dict-nesting depth, capped at 15. -/
def analyzeWorkN (procs : List Proc) (p : String) (depth loopDepth : ℕ)
    (st : WorkState) : Node → WorkState
  | .forS _ _ _ b =>
    if depth > 15 then st
    else
      let cur := loopDepth + 1
      let st := { st with hasLoop := true, maxNestedDepth := max st.maxNestedDepth cur }
      analyzeWorkN procs p (depth + 1) cur st b
  | .whileS _ b =>
    if depth > 15 then st
    else
      let cur := loopDepth + 1
      let st := { st with hasLoop := true, maxNestedDepth := max st.maxNestedDepth cur }
      analyzeWorkN procs p (depth + 1) cur st b
  | .repeatS body _ =>
    if depth > 15 then st
    else
      let cur := loopDepth + 1
      let st := { st with hasLoop := true, maxNestedDepth := max st.maxNestedDepth cur }
      analyzeWorkL procs p (depth + 1) cur st body
  | .assign t e =>
    if depth > 15 then st
    else
      let st := if loopDepth = 0 then { st with simpleOps := st.simpleOps + 1 } else st
      analyzeWorkN procs p (depth + 1) loopDepth
        (analyzeWorkN procs p (depth + 1) loopDepth st t) e
  | .callS name args =>
    if depth > 15 then st
    else if name == p then st
    else
      let pc := getProcedureComplexity name procs
      let st :=
        if complexityGreaterThan pc st.maxCalled then { st with maxCalled := pc } else st
      analyzeWorkL procs p (depth + 1) loopDepth st args
  | .callE _ args =>
    if depth > 15 then st else analyzeWorkL procs p (depth + 1) loopDepth st args
  | .num _ => st
  | .boolLit _ => st
  | .strLit _ => st
  | .var _ => st
  | .varDecl _ => st
  | .binop _ l r =>
    if depth > 15 then st
    else
      analyzeWorkN procs p (depth + 1) loopDepth
        (analyzeWorkN procs p (depth + 1) loopDepth st l) r
  | .ret none => st
  | .ret (some e) =>
    if depth > 15 then st else analyzeWorkN procs p (depth + 1) loopDepth st e
  | .block body =>
    if depth > 15 then st else analyzeWorkL procs p (depth + 1) loopDepth st body
  | .ifS c t elseB =>
    if depth > 15 then st
    else
      let st := analyzeWorkN procs p (depth + 1) loopDepth st c
      let st := analyzeWorkN procs p (depth + 1) loopDepth st t
      match elseB with
      | some e => analyzeWorkN procs p (depth + 1) loopDepth st e
      | none => st
  | .arrayAccess a i =>
    if depth > 15 then st
    else
      analyzeWorkN procs p (depth + 1) loopDepth
        (analyzeWorkN procs p (depth + 1) loopDepth st a) i
  | .lengthE e =>
    if depth > 15 then st else analyzeWorkN procs p (depth + 1) loopDepth st e

/-- List part of `_analyze_non_recursive_work_v2` (list items keep the
current dict depth). -/
def analyzeWorkL (procs : List Proc) (p : String) (depth loopDepth : ℕ)
    (st : WorkState) : List Node → WorkState
  | [] => st
  | x :: xs =>
    analyzeWorkL procs p depth loopDepth (analyzeWorkN procs p depth loopDepth st x) xs
end

/-- `RecurrenceSolver._analyze_non_recursive_work_v2`: the non-recursive
work label `f(n)` ("loops dominate, then callee costs, then constant"). -/
def analyzeNonRecursiveWorkV2 (procs : List Proc) (p : String) (body : Node) : String :=
  let st := analyzeWorkN procs p 0 0 ⟨0, false, 0, "1"⟩ body
  if st.maxNestedDepth > 0 then
    if st.maxNestedDepth = 1 then "n" else let d := toString st.maxNestedDepth; s!"n^{d}"
  else if st.maxCalled != "1" then st.maxCalled
  else if st.simpleOps ≤ 20 then "1" else "n"

/-- `RecurrenceSolver.infer_from_ast`: builds the `RecurrenceRelation` of
a recursive procedure (`none` for non-recursive procedures, i.e. Python
`None`). -/
def inferFromAst (procName : String) (procAst : Proc)
    (recursionInfo : List (String × RecursionInfo)) (procedures : List Proc) :
    Option RecurrenceRelation :=
  match recursionInfo.find? (fun e => e.1 == procName) with
  | none => none
  | some e =>
    if !e.2.is_recursive then none
    else
      let numActiveCalls := countActiveN procName procAst.body
      let allCalls := findCallsSolverN procAst.body
      let red := analyzeReductionFromCalls allCalls
      let workComplexity := analyzeNonRecursiveWorkV2 procedures procName procAst.body
      some { a := (numActiveCalls : ℤ), b := red.2, f_complexity := workComplexity,
             reduction_type := red.1 }

/-! ## `patterns.py`: `PatternClassifier` -/

/-- `PatternType` enum of `src/analyzer/patterns.py`. -/
inductive PatternType where
  | binarySearch | linearSearch | mergeSort | quickSort
  | fibonacci | factorial | towerOfHanoi
  | karatsuba | strassen | fibonacciDP
  | nQueens | permutations
  | gcdEuclidean | powerRecursive
  | unknown
deriving Repr, DecidableEq

/-- The `.value` strings of `PatternType`. -/
def PatternType.value : PatternType → String
  | .binarySearch => "Búsqueda Binaria"
  | .linearSearch => "Búsqueda Lineal"
  | .mergeSort => "Merge Sort"
  | .quickSort => "Quick Sort"
  | .fibonacci => "Fibonacci (naïve)"
  | .factorial => "Factorial"
  | .towerOfHanoi => "Torres de Hanoi"
  | .karatsuba => "Multiplicación de Karatsuba"
  | .strassen => "Multiplicación de Strassen"
  | .fibonacciDP => "Fibonacci (optimizado)"
  | .nQueens => "N-Reinas (Backtracking)"
  | .permutations => "Generación de Permutaciones"
  | .gcdEuclidean => "MCD (Euclides)"
  | .powerRecursive => "Potencia Recursiva"
  | .unknown => "Desconocido"

/-- `PatternClassification` dataclass. -/
structure PatternClassification where
  pattern : PatternType
  complexity : String
  confidence : ℚ
  explanation : String
  characteristics : List String
deriving Repr, DecidableEq

/-- Python `any(x in name for x in keywords)`. -/
def anyKeyword (name : String) (keywords : List String) : Bool :=
  keywords.any (fun k => strContains name k)

/-- `PatternClassifier.classify`.  The solution object is only read
through its `.complexity` attribute, passed here as `solComplexity`;
`getattr(rel, ..., default)` on the optional relation is modelled by the
`Option` match. -/
def classify (funcName : String) (info : RecursionInfo) (solComplexity : String)
    (rel : Option RecurrenceRelation) : PatternClassification :=
  if !info.is_recursive then
    { pattern := .unknown, complexity := "No recursivo", confidence := 1,
      explanation := "La función no es recursiva", characteristics := [] }
  else
    let nameLower := strLower funcName
    let relA : ℤ := match rel with | some r => r.a | none => 0
    let relF : String := match rel with | some r => r.f_complexity | none => ""
    let lowc := strLower solComplexity
    let cc := info.call_count
    if cc = 1 && info.depth_pattern == "divide_and_conquer" &&
        info.subproblem == "n/2" && relA = 1 && strContains lowc "log" &&
        !(strContains (pyReplace lowc "log" "") "n") then
      { pattern := .binarySearch, complexity := "O(log n)", confidence := 1,
        explanation := "T(n) = T(n/2) + O(1) → Una llamada, divide en mitades, costo constante",
        characteristics :=
          ["1 llamada recursiva activa", "Reduce problema a la mitad",
           "Sin trabajo de combinación", "Típico de búsqueda en datos ordenados"] }
    else if info.depth_pattern == "divide_and_conquer" && info.subproblem == "n/2" &&
        cc ≥ 2 && strContains lowc "n log" && relA = 2 &&
        strLower (pyStrip relF) == "n" && info.has_combining_work then
      { pattern := .mergeSort, complexity := "O(n log n)",
        confidence := if anyKeyword nameLower ["merge", "ordenar", "sort"] then 1 else 0.99,
        explanation := "T(n) = 2T(n/2) + O(n) → Divide en mitades, combina linealmente",
        characteristics :=
          ["2 llamadas recursivas", "Divide en mitades exactas", "Fase de merge O(n)",
           "Estable y óptimo para ordenamiento por comparación"] }
    else if cc ≥ 2 && info.depth_pattern == "divide_and_conquer" &&
        (info.subproblem == "n/2" || info.subproblem == "unknown") &&
        !info.has_combining_work && strContains lowc "n log" then
      { pattern := .quickSort, complexity := "O(n log n) promedio, O(n²) peor caso",
        confidence := if anyKeyword nameLower ["quick", "rapido"] then 0.98 else 0.90,
        explanation := "2 llamadas, partición posiblemente desbalanceada, sin merge",
        characteristics :=
          ["2 llamadas recursivas", "División puede ser desbalanceada",
           "Sin fase de combinación", "In-place (eficiente en espacio)"] }
    else if cc = 2 && info.subproblem == "n-1" && info.depth_pattern == "tree" &&
        (strContains solComplexity "2^n" || strContains solComplexity "^n") then
      { pattern := .fibonacci, complexity := "O(2^n)", confidence := 1,
        explanation := "T(n) = T(n-1) + T(n-2) → Árbol binario exponencial",
        characteristics :=
          ["2 llamadas: F(n-1) y F(n-2)", "Recalcula subproblemas repetidamente",
           "Exponencial sin memoización", "Mejora a O(n) con programación dinámica"] }
    else if cc = 1 && info.subproblem == "n-1" && info.depth_pattern == "linear" &&
        strContains lowc "n" && !(strContains lowc "log") &&
        !(strContains solComplexity "^") then
      { pattern := .factorial, complexity := "O(n)",
        confidence := if anyKeyword nameLower ["fact", "factorial"] then 1 else 0.85,
        explanation := "T(n) = T(n-1) + O(1) → Recursión lineal simple",
        characteristics :=
          ["1 llamada recursiva", "Reduce problema en 1", "Trabajo constante por llamada",
           "Clásico ejemplo de recursión lineal"] }
    else if cc = 2 && info.subproblem == "n-1" && info.depth_pattern == "tree" &&
        strContains solComplexity "2^n" then
      { pattern := .towerOfHanoi, complexity := "O(2^n)",
        confidence := if anyKeyword nameLower ["hanoi", "torre", "tower"] then 1 else 0.80,
        explanation := "T(n) = 2T(n-1) + O(1) → 2^n movimientos mínimos",
        characteristics :=
          ["2 llamadas recursivas", "Cada una con n-1 discos",
           "Movimientos óptimos: 2^n - 1", "Problema clásico de recursión"] }
    else if cc = 1 &&
        (info.depth_pattern == "linear" || info.depth_pattern == "divide_and_conquer") &&
        strContains lowc "log" &&
        (info.subproblem == "n%m" || info.subproblem == "mod" ||
          info.subproblem == "unknown") then
      { pattern := .gcdEuclidean, complexity := "O(log min(a,b))",
        confidence := if anyKeyword nameLower ["gcd", "mcd", "euclid"] then 0.95 else 0.70,
        explanation := "Algoritmo de Euclides: reduce rápidamente el tamaño",
        characteristics :=
          ["1 llamada recursiva", "Usa operación módulo", "Logarítmico en el número menor",
           "Muy eficiente para números grandes"] }
    else if cc = 1 && info.subproblem == "n/2" && strContains lowc "log" &&
        info.depth_pattern == "divide_and_conquer" then
      { pattern := .powerRecursive, complexity := "O(log n)",
        confidence :=
          if anyKeyword nameLower ["pow", "power", "potencia", "exp"] then 0.95 else 0.75,
        explanation := "Exponenciación rápida: x^n con log(n) multiplicaciones",
        characteristics :=
          ["1 llamada con n/2", "Multiplica resultado consigo mismo",
           "Mucho más rápido que O(n) lineal", "Usado en criptografía"] }
    else if cc = 3 && info.subproblem == "n/2" &&
        info.depth_pattern == "divide_and_conquer" then
      { pattern := .karatsuba, complexity := "O(n^1.585)",
        confidence := if anyKeyword nameLower ["karatsuba", "fast_mult"] then 0.95 else 0.80,
        explanation := "T(n) = 3T(n/2) + O(n) → Multiplicación sub-cuadrática",
        characteristics :=
          ["3 llamadas recursivas (truco de Karatsuba)", "Divide números en mitades",
           "Mejor que O(n²) tradicional", "Usado para números muy grandes"] }
    else if cc ≥ 4 && info.depth_pattern == "tree" && strContains solComplexity "^n" then
      { pattern :=
          if strContains nameLower "queen" || strContains nameLower "reina" then
            .nQueens
          else .permutations,
        complexity := solComplexity,
        confidence :=
          if anyKeyword nameLower ["queen", "reina", "permut", "backtrack"] then 0.90
          else 0.65,
        explanation := "Backtracking: explora múltiples ramas, poda inviable",
        characteristics :=
          [s!"{cc}+ llamadas recursivas", "Explora árbol de decisiones",
           "Poda de ramas inviables", "Complejidad factorial o exponencial"] }
    else
      let rt := info.recursion_type
      let dp := info.depth_pattern
      let sub := info.subproblem
      { pattern := .unknown, complexity := solComplexity, confidence := 0.6,
        explanation := s!"Patrón no reconocido. Complejidad estimada: {solComplexity}",
        characteristics :=
          [s!"Tipo: {rt}", s!"Patrón: {dp}", s!"{cc} llamadas recursivas",
           s!"Subproblema: {sub}"] }

/-! ## The sympy value model

`case_analyzer.py` and `complexity.py` compute with `sympy` expressions
over the single symbol `n`.  `SymExpr` is the syntax of the expressions
those modules actually build; the smart constructors below perform the
automatic evaluation sympy applies on construction for these shapes
(numeric folding, `1·x = x`, `Max(x, x) = x`, numeric `Max`/`Min`). -/

/-- A sympy expression as built by this pipeline (`lit` covers the Python
`int`/`float` results as exact rationals, `sym` is the symbol `n`). -/
inductive SymExpr where
  | lit (q : ℚ)
  | sym
  | logE (e : SymExpr)
  | add (a b : SymExpr)
  | mul (a b : SymExpr)
  | pow (a b : SymExpr)
  | maxE (a b : SymExpr)
  | minE (a b : SymExpr)
deriving Repr, DecidableEq

/-- Multiplication with sympy's construction-time evaluation (numeric
folding and unit/zero laws). -/
def symMul (a b : SymExpr) : SymExpr :=
  match a, b with
  | .lit p, .lit q => .lit (p * q)
  | .lit p, y => if p = 1 then y else if p = 0 then .lit 0 else .mul (.lit p) y
  | x, .lit q => if q = 1 then x else if q = 0 then .lit 0 else .mul x (.lit q)
  | x, y => .mul x y

/-- Addition with sympy's construction-time evaluation (numeric folding
and the `0 + x = x` law; further like-term combination happens in
`sympySimplify`, where the source routes sums). -/
def symAdd (a b : SymExpr) : SymExpr :=
  match a, b with
  | .lit p, .lit q => .lit (p + q)
  | .lit p, y => if p = 0 then y else .add (.lit p) y
  | x, .lit q => if q = 0 then x else .add x (.lit q)
  | x, y => .add x y

/-- `sympy.Max` on the shapes reached here. -/
def symMax (a b : SymExpr) : SymExpr :=
  match a, b with
  | .lit p, .lit q => .lit (max p q)
  | x, y => if x = y then x else .maxE x y

/-- `sympy.Min` on the shapes reached here. -/
def symMin (a b : SymExpr) : SymExpr :=
  match a, b with
  | .lit p, .lit q => .lit (min p q)
  | x, y => if x = y then x else .minE x y

/-- Python `x / 2` on the values the case analyzer halves (a sympy
symbol becomes `Mul(1/2, n)`, a number becomes an exact float). -/
def symHalf : SymExpr → SymExpr
  | .lit q => .lit (q / 2)
  | e => .mul (.lit (1/2)) e

/-- Rendering of `SymExpr` mirroring `str()` of the sympy expressions this
pipeline builds (`n/2`, `2*n`, `n**2`, `log(n)`, `Max(a, b)`, ...). -/
def symStr : SymExpr → String
  | .lit q => qRender q
  | .sym => "n"
  | .logE e => let s := symStr e; s!"log({s})"
  | .add a b => let sa := symStr a; let sb := symStr b; s!"{sa} + {sb}"
  | .mul a b =>
    match a, b with
    | .lit q, y =>
      let sy := symStr y
      if q.num = 1 && q.den ≠ 1 then let d := toString q.den; s!"{sy}/{d}"
      else let sq := qRender q; s!"{sq}*{sy}"
    | x, y => let sx := symStr x; let sy := symStr y; s!"{sx}*{sy}"
  | .pow a b => let sa := symStr a; let sb := symStr b; s!"{sa}**{sb}"
  | .maxE a b => let sa := symStr a; let sb := symStr b; s!"Max({sa}, {sb})"
  | .minE a b => let sa := symStr a; let sb := symStr b; s!"Min({sa}, {sb})"

/-- The dominance rank realizing the spec's `ComplexityExpression` order
(`Constant < Logarithmic < Polynomial(d) < PolyLog(d) < Exponential`) on
the expressions the analyses emit: polynomial degree `d` ranks `2·d`, an
extra `log` factor adds `1`, exponentials rank above every polynomial. -/
def dominanceRank : SymExpr → ℕ
  | .lit _ => 0
  | .logE _ => 1
  | .sym => 2
  | .mul a b => dominanceRank a + dominanceRank b
  | .add a b => max (dominanceRank a) (dominanceRank b)
  | .pow b e =>
    match b, e with
    | .sym, .lit q => 2 * q.num.toNat
    | .lit q, _ => 1000 + q.num.toNat
    | _, _ => 1000
  | .maxE a b => max (dominanceRank a) (dominanceRank b)
  | .minE a b => min (dominanceRank a) (dominanceRank b)

/-- The dominance order `⪯` of the spec over produced expressions. -/
def dominanceLe (a b : SymExpr) : Prop := dominanceRank a ≤ dominanceRank b

instance (a b : SymExpr) : Decidable (dominanceLe a b) := by
  unfold dominanceLe; infer_instance

/-! ## `case_analyzer.py`: `CaseAnalyzer` -/

/-- The result dict of `CaseAnalyzer.analyze_loop_cases`. -/
structure CaseComplexity where
  worst : SymExpr
  best : SymExpr
  average : SymExpr
  differs : Bool
  explanation : String
deriving Repr, DecidableEq

mutual
/-- `CaseAnalyzer._has_flag_assignment`: an assignment of a boolean
literal, of the variables `T`/`F`, or to a flag-named target; blocks are
searched statement-wise (no generic descent). -/
def hasFlagAssignment : Node → Bool
  | .assign t e =>
    (match e with
     | .boolLit _ => true
     | .var v => v == "T" || v == "F"
     | _ => false) ||
    (match t with
     | .var name =>
       ["encontrado", "found", "done", "flag", "terminar"].any
         (fun fl => strContains (strLower name) fl)
     | _ => false)
  | .block body => hasFlagAssignmentL body
  | _ => false

/-- Block part of `_has_flag_assignment`. -/
def hasFlagAssignmentL : List Node → Bool
  | [] => false
  | x :: xs => hasFlagAssignment x || hasFlagAssignmentL xs
end

mutual
/-- `CaseAnalyzer._has_counter_modification`: an assignment to a typical
loop-control variable name. -/
def hasCounterModification : Node → Bool
  | .assign t _ =>
    (match t with
     | .var name => ["i", "j", "k", "idx", "pos"].contains name
     | _ => false)
  | .block body => hasCounterModificationL body
  | _ => false

/-- Block part of `_has_counter_modification`. -/
def hasCounterModificationL : List Node → Bool
  | [] => false
  | x :: xs => hasCounterModification x || hasCounterModificationL xs
end

mutual
/-- `CaseAnalyzer._search_early_exit_pattern`: searches (generic walk,
depth-capped at 10, lists count one level) for an `if` whose `then`
branch assigns a flag or overwrites a loop counter. -/
def searchEarlyN (depth : ℕ) : Node → Bool
  | .ifS c t elseB =>
    if depth > 10 then false
    else
      hasFlagAssignment t || hasCounterModification t ||
      searchEarlyN (depth + 1) c || searchEarlyN (depth + 1) t ||
      (match elseB with
       | some e => searchEarlyN (depth + 1) e
       | none => false)
  | .num _ => false
  | .boolLit _ => false
  | .strLit _ => false
  | .var _ => false
  | .varDecl _ => false
  | .binop _ l r =>
    if depth > 10 then false
    else searchEarlyN (depth + 1) l || searchEarlyN (depth + 1) r
  | .callE _ args =>
    if depth > 10 then false else searchEarlyL (depth + 1) args
  | .callS _ args =>
    if depth > 10 then false else searchEarlyL (depth + 1) args
  | .assign t e =>
    if depth > 10 then false
    else searchEarlyN (depth + 1) t || searchEarlyN (depth + 1) e
  | .ret none => false
  | .ret (some e) => if depth > 10 then false else searchEarlyN (depth + 1) e
  | .block body => if depth > 10 then false else searchEarlyL (depth + 1) body
  | .forS _ s e b =>
    if depth > 10 then false
    else
      searchEarlyN (depth + 1) s || searchEarlyN (depth + 1) e ||
        searchEarlyN (depth + 1) b
  | .whileS c b =>
    if depth > 10 then false
    else searchEarlyN (depth + 1) c || searchEarlyN (depth + 1) b
  | .repeatS body c =>
    if depth > 10 then false
    else searchEarlyL (depth + 1) body || searchEarlyN (depth + 1) c
  | .arrayAccess a i =>
    if depth > 10 then false
    else searchEarlyN (depth + 1) a || searchEarlyN (depth + 1) i
  | .lengthE e => if depth > 10 then false else searchEarlyN (depth + 1) e

/-- List part of `_search_early_exit_pattern` (items one level deeper). -/
def searchEarlyL (depth : ℕ) : List Node → Bool
  | [] => false
  | x :: xs =>
    if depth > 10 then false
    else searchEarlyN (depth + 1) x || searchEarlyL depth xs
end

/-- `CaseAnalyzer._has_early_exit`. -/
def hasEarlyExit (body : Node) : Bool := searchEarlyN 0 body

/-- `CaseAnalyzer._calculate_max_iterations`: `n` for `length`/variable
bounds, `end − start + 1` for literal integer bounds, `n` otherwise. -/
def calculateMaxIterations (start stop : Node) : SymExpr :=
  match stop with
  | .lengthE _ => .sym
  | .var _ => .sym
  | .num e =>
    match start with
    | .num s => .lit ((e : ℚ) - (s : ℚ) + 1)
    | _ => .sym
  | _ => .sym

/-- `CaseAnalyzer._is_search_pattern`: the loop body (a block) contains a
top-level `if` (the condition argument is not inspected by the source). -/
def isSearchPattern (_cond body : Node) : Bool :=
  match body with
  | .block stmts =>
    stmts.any (fun st => match st with | .ifS _ _ _ => true | _ => false)
  | _ => false

/-- `CaseAnalyzer._analyze_for_cases`. -/
def analyzeForCases (v : String) (start stop body : Node) : CaseComplexity :=
  let _ := v
  let maxIterations := calculateMaxIterations start stop
  if hasEarlyExit body then
    { worst := maxIterations, best := .lit 1, average := symHalf maxIterations,
      differs := true,
      explanation := "El ciclo tiene condiciones que pueden terminarlo tempranamente.\n" }
  else
    let s := symStr maxIterations
    { worst := maxIterations, best := maxIterations, average := maxIterations,
      differs := false,
      explanation := s!"El ciclo siempre itera {s} veces" }

/-- `CaseAnalyzer._analyze_while_cases`. -/
def analyzeWhileCases (cond body : Node) : CaseComplexity :=
  if isSearchPattern cond body then
    { worst := .sym, best := .lit 1, average := .mul (.lit (1/2)) .sym,
      differs := true,
      explanation := "WHILE con patrón de búsqueda:\n  - Peor caso: O(n) - recorre todo\n  - Mejor caso: O(1) - encuentra inmediatamente\n  - Caso promedio: O(n/2) ≈ O(n)" }
  else
    { worst := .sym, best := .sym, average := .sym, differs := false,
      explanation := "WHILE: número de iteraciones depende de la condición (asumido n)" }

/-- `CaseAnalyzer._analyze_repeat_cases`: a fixed result, the loop body
and condition are not inspected. -/
def analyzeRepeatCases (_body : List Node) (_cond : Node) : CaseComplexity :=
  { worst := .sym, best := .lit 1, average := .mul (.lit (1/2)) .sym,
    differs := true,
    explanation := "REPEAT-UNTIL:\n  - Peor caso: O(n)\n  - Mejor caso: O(1) - condición se cumple en primera iteración\n  - Caso promedio: O(n/2) ≈ O(n)" }

/-- `CaseAnalyzer.analyze_loop_cases`: dispatch on the loop node type. -/
def analyzeLoopCases (node : Node) : CaseComplexity :=
  match node with
  | .forS v start stop body => analyzeForCases v start stop body
  | .whileS cond body => analyzeWhileCases cond body
  | .repeatS body cond => analyzeRepeatCases body cond
  | _ =>
    { worst := .sym, best := .sym, average := .sym, differs := false,
      explanation := "No se detectaron diferencias entre casos" }

/-- Whether a node is one of the three loop kinds. -/
def isLoopNode : Node → Bool
  | .forS _ _ _ _ => true
  | .whileS _ _ => true
  | .repeatS _ _ => true
  | _ => false

/-! ## `complexity.py`: `ComplexityAnalyzer` -/

/-- `sympy` `b ** n` for an integer base and the positive integer symbol
`n` (sympy auto-evaluates `0**n = 0` and `1**n = 1` under the positivity
assumption). -/
def symPowBase (b : ℕ) : SymExpr :=
  if b = 0 then .lit 0 else if b = 1 then .lit 1 else .pow (.lit b) .sym

/-- Case 6 of `ComplexityAnalyzer._parse_complexity_string` (exponential
labels; an unparsable base falls back to `2**n` via the inner
`except`). -/
def parseComplexityCase6 (s : String) : Option SymExpr :=
  if strContains s "^n" then
    let base := pyStrip ((pySplitOn s "^").headD "")
    match parseDigits base with
    | some b => some (symPowBase b)
    | none => some (.pow (.lit 2) .sym)
  else none

/-- `ComplexityAnalyzer._parse_complexity_string`: complexity label →
sympy expression.  `none` models the outer `except` (the `eval` fallback
raising on the labels this pipeline produces), after which the caller
records a warning step and uses `n`. -/
def parseComplexityString (input : String) : Option SymExpr :=
  let s := strLower (pyStrip input)
  if s == "1" then some (.lit 1)
  else if s == "n" then some .sym
  else if s == "log(n)" || s == "log n" || s == "logn" then some (.logE .sym)
  else if strContains s "log" && strContains s "*" && pyStartsWith s "n" then
    if strContains ((pySplitOn s "*").headD "") "^" then
      match (pySplitOn s "^").drop 1 with
      | expPart :: _ =>
        match parseDigits (pyStrip ((pySplitOn expPart "*").headD "")) with
        | some k => some (.mul (.pow .sym (.lit k)) (.logE .sym))
        | none => none
      | [] => none
    else some (.mul .sym (.logE .sym))
  else if strContains s "^" && !(strContains s "log") && pyStartsWith s "n^" then
    match parseFloatQ (pyReplace s "n^" "") with
    | some q => some (.pow .sym (.lit q))
    | none => parseComplexityCase6 s
  else parseComplexityCase6 s

/-- `ComplexityAnalyzer._calculate_iterations` (same cases as the case
analyzer's `_calculate_max_iterations`, checked in the source's order). -/
def calculateIterations (start stop : Node) : SymExpr :=
  match stop with
  | .lengthE _ => .sym
  | .num e =>
    match start with
    | .num s => .lit ((e : ℚ) - (s : ℚ) + 1)
    | _ => .sym
  | .var _ => .sym
  | _ => .sym

/-- `ComplexityAnalyzer._extract_control_var`. -/
def extractControlVar : Node → Option String
  | .binop _ l r =>
    match l with
    | .var v => some v
    | _ =>
      match r with
      | .var v => some v
      | _ => none
  | _ => none

/-- The `{op, value}` dict returned by
`ComplexityAnalyzer._analyze_assignment_math`. -/
structure ModInfo where
  op : String
  value : String
deriving Repr, DecidableEq

/-- `ComplexityAnalyzer._analyze_assignment_math`: detects `i = i ⊕ k`
updates of the control variable and maps the parser's operator token to
the arithmetic symbol. -/
def analyzeAssignmentMath (expr : Node) (varName : String) : Option ModInfo :=
  match expr with
  | .binop opTok l r =>
    let op :=
      if opTok == "PLUS" then "+"
      else if opTok == "MINUS" then "-"
      else if opTok == "MULT" then "*"
      else if opTok == "TIMES" then "*"
      else if opTok == "STAR" then "*"
      else if opTok == "DIV" then "/"
      else if opTok == "MOD" then "%"
      else opTok
    let isLeftVar := match l with | .var v => v == varName | _ => false
    let isRightVar := match r with | .var v => v == varName | _ => false
    let otherVal := if isLeftVar then r else l
    if isLeftVar || isRightVar then
      let valStr :=
        match otherVal with
        | .num v => toString v
        | .var v => v
        | .boolLit b => if b then "True" else "False"
        | .strLit st => st
        | _ => "k"
      some { op := op, value := valStr }
    else none
  | _ => none

/-- Statement list of a loop body as extracted at the top of
`ComplexityAnalyzer._find_variable_modification` (a block's statements, a
list as-is, otherwise the single node). -/
def stmtsOfBody : Node → List Node
  | .block b => b
  | other => [other]

/-- `ComplexityAnalyzer._find_variable_modification` over the extracted
statement list: the `inc(i)` special case reads `args[0]["value"]` and the
Python `IndexError` on an argument-less `inc` is modelled as an error. -/
def findVariableModification (stmts : List Node) (varName : String) :
    Except String (Option ModInfo) :=
  match stmts with
  | [] => .ok none
  | stmt :: rest =>
    match stmt with
    | .assign (.var tv) e =>
      if tv == varName then .ok (analyzeAssignmentMath e varName)
      else findVariableModification rest varName
    | .callS cname args =>
      if cname == "inc" then
        match args with
        | [] => .error "IndexError: list index out of range"
        | a :: _ =>
          let av := match a with | .var v => v | .num v => toString v | _ => ""
          if av == varName then .ok (some { op := "+", value := "1" })
          else findVariableModification rest varName
      else findVariableModification rest varName
    | _ => findVariableModification rest varName

/-- The `{iterations, pattern}` result of
`ComplexityAnalyzer._infer_loop_complexity`. -/
structure IterInfo where
  iterations : SymExpr
  pattern : String
deriving Repr, DecidableEq

/-- `sympy.log(n, 2)`, which sympy stores as `log(n)/log(2)`. -/
def symLogBase2 : SymExpr := .mul (.logE .sym) (.pow (.logE (.lit 2)) (.lit (-1)))

/-- `ComplexityAnalyzer._infer_loop_complexity`: iteration count from the
loop-control variable's update (additive → `n`, multiplicative →
logarithmic, squaring → doubly logarithmic). -/
def inferLoopComplexity (cond : Node) (bodyStmts : List Node) :
    Except String IterInfo :=
  let defaultResult : IterInfo := ⟨.sym, "Lineal Genérico (Asumido)"⟩
  match extractControlVar cond with
  | none => .ok defaultResult
  | some controlVar =>
    match findVariableModification bodyStmts controlVar with
    | .error e => .error e
    | .ok none => .ok defaultResult
    | .ok (some m) =>
      if m.op == "+" || m.op == "-" then
        let o := m.op
        .ok ⟨.sym, s!"Lineal (Paso {o} const)"⟩
      else if m.op == "*" then
        if m.value == "2" then .ok ⟨symLogBase2, "Logarítmico (Multiplicación x2)"⟩
        else .ok ⟨.logE .sym, "Logarítmico (Multiplicación)"⟩
      else if m.op == "/" then .ok ⟨.logE .sym, "Logarítmico (División)"⟩
      else if m.op == "^" || m.op == "**" then
        .ok ⟨.logE (.logE .sym), "Doble Logarítmico"⟩
      else .ok defaultResult

/-- Flattened summands of an addition tree. -/
def flattenAdd : SymExpr → List SymExpr
  | .add a b => flattenAdd a ++ flattenAdd b
  | e => [e]

/-- Flattened factors of a multiplication tree. -/
def flattenMul : SymExpr → List SymExpr
  | .mul a b => flattenMul a ++ flattenMul b
  | e => [e]

/-- Whether an expression is a bare number. -/
def SymExpr.isLit : SymExpr → Bool
  | .lit _ => true
  | _ => false

/-- Numeric coefficient and symbolic base of one summand. -/
def termSplit : SymExpr → ℚ × SymExpr
  | .lit q => (q, .lit 1)
  | .mul (.lit q) b => (q, b)
  | e => (1, e)

/-- Insertion into a descending-`dominanceRank` list (numbers last),
mirroring sympy's printing order of `Add` terms. -/
def insertByRank (t : SymExpr) : List SymExpr → List SymExpr
  | [] => [t]
  | x :: xs =>
    if dominanceRank t ≥ dominanceRank x then t :: x :: xs
    else x :: insertByRank t xs

/-- Models `sympy.simplify` on the sums this walk produces: like terms
are collected (as sympy's `Add` does on construction), numbers folded,
and terms ordered as sympy prints them. -/
def sympySimplify (e : SymExpr) : SymExpr :=
  match e with
  | .add _ _ =>
    let terms := flattenAdd e
    let collected : List (SymExpr × ℚ) :=
      terms.foldl
        (fun acc t =>
          let s := termSplit t
          match acc.find? (fun p => p.1 == s.2) with
          | some _ => acc.map (fun p => if p.1 == s.2 then (p.1, p.2 + s.1) else p)
          | none => acc ++ [(s.2, s.1)])
        []
    let rebuilt : List SymExpr :=
      collected.foldl
        (fun acc p =>
          if p.2 = 0 then acc
          else if p.1 == SymExpr.lit 1 then acc ++ [SymExpr.lit p.2]
          else if p.2 = 1 then acc ++ [p.1]
          else acc ++ [SymExpr.mul (.lit p.2) p.1])
        []
    let ordered := rebuilt.foldl (fun acc t => insertByRank t acc) []
    match ordered with
    | [] => .lit 0
    | t :: ts => ts.foldl .add t
  | _ => e

/-- The non-`Add` tail of `ComplexityAnalyzer._simplify_complexity`
(numeric-coefficient stripping of a `Mul`). -/
def simplifyNonAdd (s : SymExpr) : SymExpr :=
  match s with
  | .mul _ _ =>
    let fs := flattenMul s
    let nonConst := fs.filter (fun f => !f.isLit)
    match nonConst with
    | [] => s
    | [x] => x
    | x :: xs => xs.foldl .mul x
  | _ => s

/-- `ComplexityAnalyzer._simplify_complexity`: numbers `≤ 1` collapse to
`1`, numeric coefficients are stripped, and of a sum the last
sympy-ordered term is taken (sympy's print order lists the numerically
smallest term last). -/
def simplifyComplexity (expr : SymExpr) : SymExpr :=
  match expr with
  | .lit q => if q ≤ 1 then .lit 1 else .lit q
  | e =>
    let s := sympySimplify e
    match s with
    | .add _ _ =>
      match (flattenAdd s).getLast? with
      | some t =>
        match t with
        | .lit q => if q ≤ 1 then .lit 1 else .lit q
        | t' => simplifyNonAdd (sympySimplify t')
      | none => s
    | _ => simplifyNonAdd s

/-- `ComplexityAnalyzer._expr_to_str`. -/
def exprToStr : Node → String
  | .num v => toString v
  | .var v => v
  | .lengthE _ => "length(...)"
  | _ => "expr"

/-- One entry of `ComplexityAnalyzer.recurrence_solutions`. -/
structure SolEntry where
  relation : String
  solution : String
  method : String
  explanation : String
deriving Repr, DecidableEq

/-- The solution object stored in `per_procedure_analysis` (either a
`RecurrenceSolution` or the `FallbackSolution` placeholder; only these
three attributes are ever read downstream). -/
structure SolutionLike where
  complexity : String
  method : String
  explanation : String
deriving Repr, DecidableEq

/-- One entry of `ComplexityAnalyzer.per_procedure_analysis`. -/
structure ProcAnalysis where
  recursion_info : RecursionInfo
  relation : Option RecurrenceRelation
  solution : SolutionLike
  complexity : String
  method : String
deriving Repr, DecidableEq

/-- The mutable per-instance state of a `ComplexityAnalyzer` (the fields
assigned in `__init__` that the analysis reads and writes; a freshly
constructed analyzer starts from `freshAnalyzerState`). -/
structure AnalyzerState where
  procedures : List (String × Proc)
  steps : List String
  recurrenceSolutions : List (String × SolEntry)
  perProcedure : List (String × ProcAnalysis)

/-- The state of a freshly constructed `ComplexityAnalyzer`. -/
def freshAnalyzerState : AnalyzerState := ⟨[], [], [], []⟩

/-- Append one step string (`self.steps.append(...)`). -/
def AnalyzerState.addStep (st : AnalyzerState) (s : String) : AnalyzerState :=
  { st with steps := st.steps ++ [s] }

/-- Dict lookup on an association list. -/
def assocFind {α : Type} (l : List (String × α)) (k : String) : Option α :=
  (l.find? (fun e => e.1 == k)).map (fun e => e.2)

/-- Dict update (`d[k] = v`) on an association list. -/
def assocUpdate {α : Type} (l : List (String × α)) (k : String) (v : α) :
    List (String × α) :=
  if (l.find? (fun e => e.1 == k)).isSome then
    l.map (fun e => if e.1 == k then (k, v) else e)
  else l ++ [(k, v)]

/-- A worst/best/average triple as returned by the statement walk. -/
structure Triple where
  worst : SymExpr
  best : SymExpr
  average : SymExpr
deriving Repr, DecidableEq

/-- Numeric value of a literal expression (only applied to literals). -/
def litVal : SymExpr → ℚ
  | .lit q => q
  | _ => 0

/-- `ComplexityAnalyzer._get_dominant_complexity`: Python numbers `≤ 1`
are dropped; if nothing remains the (numeric) list is summed, otherwise
the remaining terms are summed symbolically and simplified.  (Numbers that
arrive as sympy integers rather than Python ints are not distinguished
here.) -/
def getDominantComplexity (cs : List SymExpr) : SymExpr :=
  let nonConstants :=
    cs.filter (fun c => match c with | .lit q => decide (1 < q) | _ => true)
  if nonConstants.isEmpty then .lit (cs.foldl (fun acc c => acc + litVal c) 0)
  else sympySimplify (nonConstants.foldl symAdd (.lit 0))

/-- `ComplexityAnalyzer._register_procedures`: records the procedure table
and one step line per procedure. -/
def registerProcedures (prog : Program) (recInfo : List (String × RecursionInfo))
    (st : AnalyzerState) : AnalyzerState :=
  let st := st.addStep "--- Procedimientos encontrados ---"
  let st :=
    prog.procedures.foldl
      (fun st p =>
        let st := { st with procedures := assocUpdate st.procedures p.name p }
        let nm := p.name
        match assocFind recInfo p.name with
        | some info =>
          if info.is_recursive then
            let rt := info.recursion_type
            let dp := info.depth_pattern
            st.addStep s!"  • {nm}: RECURSIVO ({rt}, patrón: {dp})"
          else st.addStep s!"  • {nm}: iterativo"
        | none => st.addStep s!"  • {nm}: iterativo")
      st
  st.addStep ""

/-- The *effective* `ComplexityAnalyzer._get_recursive_complexity` (the
second definition in the source shadows the first). -/
def getRecursiveComplexity (recInfo : RecursionInfo) : String :=
  if recInfo.depth_pattern == "linear" then "O(n) - Recursión lineal"
  else if recInfo.depth_pattern == "tree" then "O(2^n) - Árbol de recursión"
  else "O(?) - Patrón desconocido"

/-- `ComplexityAnalyzer._build_recurrence_from_recinfo`: heuristic
relation from a `RecursionInfo` alone. -/
def buildRecurrenceFromRecinfo (recInfo : RecursionInfo) : Option RecurrenceRelation :=
  let a : ℤ := max 1 (recInfo.call_count : ℤ)
  let sub := recInfo.subproblem
  let fComplexity := if recInfo.has_combining_work then "n" else "1"
  if sub == "n/2" then some ⟨a, 2, fComplexity, "divide"⟩
  else if pyStartsWith sub "n/" then
    match (pySplitOn sub "/").drop 1 with
    | k :: _ =>
      match parseDigits k with
      | some kv => some ⟨a, (kv : ℤ), fComplexity, "divide"⟩
      | none => some ⟨a, 2, fComplexity, "divide"⟩
    | [] => some ⟨a, 2, fComplexity, "divide"⟩
  else if sub == "n-1" then some ⟨a, 1, fComplexity, "subtract"⟩
  else if sub == "slice" then some ⟨a, 2, fComplexity, "divide"⟩
  else none

/-- Nonblank lines of an explanation (`line.strip()` truthiness). -/
def nonblankLines (s : String) : List String :=
  (pySplitOn s "\n").filter (fun l => !(pyIsEmpty (pyStrip l)))

/-- `ComplexityAnalyzer._analyze_recursion`: per recursive procedure,
infer (or heuristically build) a recurrence, solve it, and record the
solution, the per-procedure analysis entry and the derivation steps; a
procedure without a buildable relation gets the `FallbackSolution`
placeholder.  A `TypeError` raised by the solver propagates. -/
def analyzeRecursionPhase (recInfo : List (String × RecursionInfo))
    (st : AnalyzerState) : Except String AnalyzerState :=
  if recInfo.isEmpty then .ok st
  else
    let st := st.addStep "--- Análisis de recursión ---"
    let result :=
      recInfo.foldl
        (fun (acc : Except String AnalyzerState) entry => do
          let st ← acc
          let procName := entry.1
          let info := entry.2
          if !info.is_recursive then pure st
          else
            let rel0 :=
              match assocFind st.procedures procName with
              | some procAst =>
                inferFromAst procName procAst recInfo (st.procedures.map (fun e => e.2))
              | none => none
            let rel :=
              match rel0 with
              | some r => some r
              | none => buildRecurrenceFromRecinfo info
            match rel with
            | some relation => do
              let solution ← solve relation
              let st :=
                { st with
                  perProcedure := assocUpdate st.perProcedure procName
                    { recursion_info := info, relation := some relation,
                      solution := ⟨solution.complexity, solution.method,
                        solution.explanation⟩,
                      complexity := solution.complexity, method := solution.method },
                  recurrenceSolutions := assocUpdate st.recurrenceSolutions procName
                    ⟨relation.str, solution.complexity, solution.method,
                      solution.explanation⟩ }
              let rs := relation.str
              let sc := solution.complexity
              let sm := solution.method
              let st := st.addStep
                s!"\n  {procName}:\n     Relación de recurrencia: {rs}\n     Solución: {sc}\n     Método: {sm}\n\n     Explicación detallada:\n"
              let st :=
                (nonblankLines solution.explanation).foldl
                  (fun st line => st.addStep s!"     {line}") st
              pure (st.addStep "")
            | none =>
              let complexityEstimate := getRecursiveComplexity info
              let dp := info.depth_pattern
              let fallback : SolutionLike :=
                ⟨complexityEstimate, "Estimación heurística",
                  s!"No se pudo construir relación de recurrencia precisa. Estimación basada en patrón: {dp}"⟩
              let st :=
                { st with
                  perProcedure := assocUpdate st.perProcedure procName
                    { recursion_info := info, relation := none, solution := fallback,
                      complexity := complexityEstimate, method := "Heurística" } }
              let rt := info.recursion_type
              let ce := complexityEstimate
              pure (st.addStep
                s!"\n  {procName}:\n     Tipo: {rt}\n     Patrón: {dp}\n     Complejidad estimada: {ce}\n     ⚠️ (No se pudo construir relación de recurrencia precisa)"))
        (.ok st)
    match result with
    | .error e => .error e
    | .ok st => .ok (st.addStep "")

/-- Fuel bounding the statement walk, modelling Python's recursion limit:
each visited node consumes one unit (a Python stack frame) and exhaustion
raises `RecursionError`, which the service turns into an `AnalysisError`.
Every program analyzed in this development stays far below the bound. -/
def walkFuel : ℕ := 1000

/-- The error raised on walk-fuel exhaustion. -/
def recursionLimitError : String := "RecursionError: maximum recursion depth exceeded"

mutual
/-- `ComplexityAnalyzer._analyze_statement`: type dispatch over one
statement.  An `if` without an `else` block reproduces the Python
`AttributeError` (`_analyze_if` calls `_analyze_statement(None)`). -/
def analyzeStatement (recInfo : List (String × RecursionInfo)) :
    ℕ → Node → AnalyzerState → Except String (Triple × AnalyzerState)
  | 0, _, _ => .error recursionLimitError
  | fuel + 1, node, st =>
    match node with
    | .block body => analyzeStatementsW recInfo fuel body st
    | .forS v start stop body => do
      -- `_analyze_for` (this first `iterations` is recomputed below, as in the source)
      let _iterations := calculateIterations start stop
      let r ← analyzeStatement recInfo fuel body st
      let bodyC := r.1
      let st := r.2
      let caseAnalysis := analyzeLoopCases (.forS v start stop body)
      if caseAnalysis.differs then
        let result : Triple :=
          ⟨symMul caseAnalysis.worst bodyC.worst, symMul caseAnalysis.best bodyC.best,
            symMul caseAnalysis.average bodyC.average⟩
        let ce := caseAnalysis.explanation
        let bw := symStr bodyC.worst
        let rw := symStr (simplifyComplexity result.worst)
        let rb := symStr (simplifyComplexity result.best)
        let st := st.addStep
          s!"\n  FOR {v} con EARLY EXIT detectado:\n    {ce}\n    Cuerpo: O({bw})\n    Peor caso total: O({rw})\n    Mejor caso total: O({rb})"
        pure (result, st)
      else
        let iterations := calculateIterations start stop
        let result : Triple :=
          ⟨symMul iterations bodyC.worst, symMul iterations bodyC.best,
            symMul iterations bodyC.average⟩
        let ss := exprToStr start
        let se := exprToStr stop
        let si := symStr iterations
        let bw := symStr bodyC.worst
        let rw := symStr (simplifyComplexity result.worst)
        let st := st.addStep
          s!"\n  FOR {v} = {ss} to {se}:\n    Iteraciones: {si}\n    Cuerpo: O({bw})\n    Total: O({rw})"
        pure (result, st)
    | .whileS cond body => do
      -- `_analyze_while`
      let r ← analyzeStatement recInfo fuel body st
      let bodyC := r.1
      let st := r.2
      let iterInfo ← inferLoopComplexity cond (stmtsOfBody body)
      let iterations := iterInfo.iterations
      let result : Triple :=
        ⟨symMul iterations bodyC.worst, .lit 1, symMul iterations bodyC.average⟩
      let sc := exprToStr cond
      let pt := iterInfo.pattern
      let si := symStr (simplifyComplexity iterations)
      let bw := symStr (simplifyComplexity bodyC.worst)
      let rw := symStr (simplifyComplexity result.worst)
      let st := st.addStep
        s!"\n  WHILE ({sc}):\n    Patrón detectado: {pt}\n    Iteraciones estimadas: O({si})\n    Cuerpo: O({bw})\n    Total Peor Caso: O({rw})"
      pure (result, st)
    | .repeatS body cond => do
      -- `_analyze_repeat`
      let r ← analyzeStatementsW recInfo fuel body st
      let bodyC := r.1
      let st := r.2
      let iterInfo ← inferLoopComplexity cond body
      let iterations := iterInfo.iterations
      let result : Triple :=
        ⟨symMul iterations bodyC.worst, bodyC.best, symMul iterations bodyC.average⟩
      let sc := exprToStr cond
      let pt := iterInfo.pattern
      let rw := symStr (simplifyComplexity result.worst)
      let st := st.addStep
        s!"\n  REPEAT-UNTIL ({sc}):\n    Patrón detectado: {pt}\n    Total Peor Caso: O({rw})"
      pure (result, st)
    | .ifS _ thenB elseB => do
      -- `_analyze_if` (the condition is not analyzed)
      let r ← analyzeStatement recInfo fuel thenB st
      let thenC := r.1
      let st := r.2
      match elseB with
      | none => .error "AttributeError: 'NoneType' object has no attribute 'get'"
      | some e => do
        let r2 ← analyzeStatement recInfo fuel e st
        let elseC := r2.1
        let st := r2.2
        let result : Triple :=
          ⟨symMax thenC.worst elseC.worst, symMin thenC.best elseC.best,
            symHalf (symAdd thenC.average elseC.average)⟩
        let tw := symStr thenC.worst
        let ew := symStr elseC.worst
        let rw := symStr (simplifyComplexity result.worst)
        let st := st.addStep
          s!"\n  IF-THEN-ELSE:\n    THEN: O({tw})\n    ELSE: O({ew})\n    Peor caso: O({rw})"
        pure (result, st)
    | .callS name _ => analyzeCallCore recInfo fuel name st
    | .callE name _ => analyzeCallCore recInfo fuel name st
    | .ret none => pure (⟨.lit 1, .lit 1, .lit 1⟩, st)
    | .ret (some e) => analyzeExpressionComplexity recInfo fuel e st
    | .assign _ e => analyzeExpressionComplexity recInfo fuel e st
    | .varDecl _ => pure (⟨.lit 1, .lit 1, .lit 1⟩, st)
    | _ => pure (⟨.lit 1, .lit 1, .lit 1⟩, st)

/-- Statement-list collector of `ComplexityAnalyzer._analyze_statements`. -/
def analyzeStatementsCollect (recInfo : List (String × RecursionInfo)) :
    ℕ → List Node → AnalyzerState → Except String (List Triple × AnalyzerState)
  | 0, _, _ => .error recursionLimitError
  | fuel + 1, stmts, st =>
    match stmts with
    | [] => pure ([], st)
    | x :: xs => do
      let r ← analyzeStatement recInfo fuel x st
      let rs ← analyzeStatementsCollect recInfo fuel xs r.2
      pure (r.1 :: rs.1, rs.2)

/-- `ComplexityAnalyzer._analyze_statements`: componentwise dominant of
the statements' triples. -/
def analyzeStatementsW (recInfo : List (String × RecursionInfo)) :
    ℕ → List Node → AnalyzerState → Except String (Triple × AnalyzerState)
  | 0, _, _ => .error recursionLimitError
  | fuel + 1, stmts, st =>
    if stmts.isEmpty then pure (⟨.lit 1, .lit 1, .lit 1⟩, st)
    else do
      let r ← analyzeStatementsCollect recInfo fuel stmts st
      let triples := r.1
      pure
        (⟨getDominantComplexity (triples.map (fun t => t.worst)),
          getDominantComplexity (triples.map (fun t => t.best)),
          getDominantComplexity (triples.map (fun t => t.average))⟩, r.2)

/-- `ComplexityAnalyzer._analyze_call`: resolved recursive procedures use
their recurrence solution; unresolved recursive ones a depth-pattern
estimate; known non-recursive procedures are analyzed recursively
(consuming fuel, Python's stack limit); unknown calls cost `O(1)`. -/
def analyzeCallCore (recInfo : List (String × RecursionInfo)) :
    ℕ → String → AnalyzerState → Except String (Triple × AnalyzerState)
  | 0, _, _ => .error recursionLimitError
  | fuel + 1, procName, st =>
    match assocFind st.recurrenceSolutions procName with
    | some solution =>
      let complexityStr := solution.solution
      let complexityExpr := pyStrip (pyReplace (pyReplace complexityStr "O(" "") ")" "")
      let parsed := parseComplexityString complexityExpr
      let st :=
        match parsed with
        | some _ => st
        | none =>
          let sLow := strLower (pyStrip complexityExpr)
          st.addStep
            s!"    ⚠️ No se pudo parsear '{sLow}': <exception>\n    Asumiendo O(n) por seguridad"
      let complexityValue := match parsed with | some v => v | none => SymExpr.sym
      let rl := solution.relation
      let sm := solution.method
      let st := st.addStep
        s!"\n  CALL {procName}() [RECURSIVO - Solución exacta]:\n    Relación: {rl}\n    Complejidad: {complexityStr}\n    Método: {sm}"
      pure (⟨complexityValue, complexityValue, complexityValue⟩, st)
    | none =>
      match assocFind recInfo procName with
      | some info =>
        if info.is_recursive then
          let ve : SymExpr × String :=
            if info.depth_pattern == "linear" then (.sym, "Recursión lineal (estimada)")
            else if info.depth_pattern == "tree" then
              (symMul .sym (.logE .sym), "Recursión tipo árbol (estimación conservadora)")
            else (.sym, "Recursión desconocida (estimada)")
          let rt := info.recursion_type
          let dp := info.depth_pattern
          let cv := symStr ve.1
          let ex := ve.2
          let st := st.addStep
            s!"\n  CALL {procName}() [RECURSIVO - Sin resolver]:\n    Tipo: {rt}\n    Patrón: {dp}\n    Complejidad estimada: O({cv})\n    ⚠️ Advertencia: {ex}"
          pure (⟨ve.1, ve.1, ve.1⟩, st)
        else analyzeCallIterative recInfo fuel procName st
      | none => analyzeCallIterative recInfo fuel procName st

/-- Known-procedure / unknown-call tail of `_analyze_call`. -/
def analyzeCallIterative (recInfo : List (String × RecursionInfo)) :
    ℕ → String → AnalyzerState → Except String (Triple × AnalyzerState)
  | 0, _, _ => .error recursionLimitError
  | fuel + 1, procName, st =>
    match assocFind st.procedures procName with
    | some procAst => do
      let r ← analyzeStatement recInfo fuel procAst.body st
      let bodyC := r.1
      let st := r.2
      let bw := symStr bodyC.worst
      let st := st.addStep
        s!"\n  CALL {procName}() [ITERATIVO]:\n    Complejidad: O({bw})"
      pure (bodyC, st)
    | none =>
      let st := st.addStep
        s!"\n  CALL {procName}() [DESCONOCIDO]:\n    Asumiendo: O(1)"
      pure (⟨.lit 1, .lit 1, .lit 1⟩, st)

/-- `ComplexityAnalyzer._analyze_expression_complexity`: calls inside
expressions are costed like call statements, binary operations take the
componentwise `Max` of their sides, everything else is `O(1)`. -/
def analyzeExpressionComplexity (recInfo : List (String × RecursionInfo)) :
    ℕ → Node → AnalyzerState → Except String (Triple × AnalyzerState)
  | 0, _, _ => .error recursionLimitError
  | fuel + 1, node, st =>
    match node with
    | .callE name _ => analyzeCallCore recInfo fuel name st
    | .callS name _ => analyzeCallCore recInfo fuel name st
    | .binop _ l r => do
      let rl ← analyzeExpressionComplexity recInfo fuel l st
      let rr ← analyzeExpressionComplexity recInfo fuel r rl.2
      pure
        (⟨symMax rl.1.worst rr.1.worst, symMax rl.1.best rr.1.best,
          symMax rl.1.average rr.1.average⟩, rr.2)
    | _ => pure (⟨.lit 1, .lit 1, .lit 1⟩, st)
end

/-- The `Complexity` dataclass of `src/analyzer/complexity.py` (`big_o`,
`omega`, `theta` hold the `str()` of the simplified sympy expressions). -/
structure Complexity where
  big_o : String
  omega : String
  theta : String
  explanation : String
  steps : List String
  recurrence_info : List (String × SolEntry)
  per_procedure_analysis : List (String × ProcAnalysis)

/-- `ComplexityAnalyzer._generate_explanation`. -/
def generateExplanation (st : AnalyzerState) (bodyC : Triple) : String :=
  let header := "ANÁLISIS DE COMPLEJIDAD:\n\n"
  let stepsText := st.steps.foldl (fun acc s => acc ++ s ++ "\n") ""
  let worstSimplified := symStr (simplifyComplexity bodyC.worst)
  let bestSimplified := symStr (simplifyComplexity bodyC.best)
  let averageSimplified := symStr (simplifyComplexity bodyC.average)
  let averageDetailed := symStr (sympySimplify bodyC.average)
  let finalBlock :=
    s!"\n=== RESULTADO FINAL ===\n" ++
    s!"Peor caso (Big-O):     O({worstSimplified})\n" ++
    s!"Mejor caso (Omega):    Ω({bestSimplified})\n" ++
    (if averageDetailed != averageSimplified then
      s!"Caso promedio (Theta): Θ({averageDetailed}) ≈ Θ({averageSimplified})\n"
    else s!"Caso promedio (Theta): Θ({averageSimplified})\n")
  let recBlock :=
    if st.recurrenceSolutions.isEmpty then ""
    else
      st.recurrenceSolutions.foldl
        (fun acc e =>
          let nm := e.1
          let rl := e.2.relation
          let so := e.2.solution
          let me := e.2.method
          acc ++ s!"\n{nm}:\n  {rl}\n  Solución: {so}\n  Método: {me}\n")
        "\n=== RELACIONES DE RECURRENCIA RESUELTAS ===\n"
  header ++ stepsText ++ finalBlock ++ recBlock

/-- `ComplexityAnalyzer.analyze` run on an analyzer whose mutable state is
`st0` (a fresh instance passes `freshAnalyzerState`): registers
procedures, solves recurrences, walks the main body and assembles the
`Complexity` value; any Python exception surfaces as `Except.error`. -/
def complexityAnalyze (prog : Program) (recInfo : List (String × RecursionInfo))
    (st0 : AnalyzerState) : Except String Complexity := do
  let st := st0.addStep "=== INICIO DEL ANÁLISIS DE COMPLEJIDAD ===\n"
  let st := registerProcedures prog recInfo st
  let st ← analyzeRecursionPhase recInfo st
  let r ← analyzeStatementsW recInfo walkFuel prog.body st
  let bodyC := r.1
  let st := r.2
  let bigO := simplifyComplexity bodyC.worst
  let omega := simplifyComplexity bodyC.best
  let theta := simplifyComplexity bodyC.average
  let explanation := generateExplanation st bodyC
  pure
    { big_o := symStr bigO, omega := symStr omega, theta := symStr theta,
      explanation := explanation, steps := st.steps,
      recurrence_info := st.recurrenceSolutions,
      per_procedure_analysis := st.perProcedure }

/-! ## `app/services/analysis_service.py`: the orchestrator -/

/-- `RecursionInfoResponse` model fields. -/
structure RecursionInfoResponse where
  is_recursive : Bool
  recursion_type : String
  call_count : ℕ
  depth_pattern : String
  subproblem : String
  has_combining_work : Bool
deriving Repr, DecidableEq

/-- `RecurrenceSolutionResponse` model fields. -/
structure RecurrenceSolutionResponse where
  relation : String
  solution : String
  method : String
  explanation : String
deriving Repr, DecidableEq

/-- `PatternClassificationResponse` model fields. -/
structure PatternClassificationResponse where
  pattern : String
  complexity : String
  confidence : ℚ
  explanation : String
  characteristics : List String
deriving Repr, DecidableEq

/-- `ProcedureAnalysisResponse` model fields. -/
structure ProcedureAnalysisResponse where
  name : String
  recursion_info : RecursionInfoResponse
  recurrence_solution : Option RecurrenceSolutionResponse
  pattern : Option PatternClassificationResponse
  complexity : String
deriving Repr, DecidableEq

/-- `ComplexityResponse` model fields. -/
structure ComplexityResponse where
  big_o : String
  omega : String
  theta : String
  explanation : String
  steps : List String
deriving Repr, DecidableEq

/-- The parts of `AnalysisResponse` owned by the modelled core (tokens,
raw AST, metadata and execution tracing are out-of-scope satellites). -/
structure AnalysisResponse where
  success : Bool
  complexity : ComplexityResponse
  procedures : Option (List (String × ProcedureAnalysisResponse))
deriving Repr, DecidableEq

/-- `AnalysisService._build_procedures_response`: per-procedure response
assembly; pattern classification is attempted per procedure (the
try/except isolation never fires because `classify` is total). -/
def buildProceduresResponse (perProc : List (String × ProcAnalysis))
    (enablePatterns : Bool) : List (String × ProcedureAnalysisResponse) :=
  perProc.map fun e =>
    let procName := e.1
    let data := e.2
    let recInfo := data.recursion_info
    let solution := data.solution
    let relation := data.relation
    let recursionResponse : RecursionInfoResponse :=
      { is_recursive := recInfo.is_recursive, recursion_type := recInfo.recursion_type,
        call_count := recInfo.call_count, depth_pattern := recInfo.depth_pattern,
        subproblem := recInfo.subproblem,
        has_combining_work := recInfo.has_combining_work }
    let recurrenceResponse : Option RecurrenceSolutionResponse :=
      match relation with
      | some rel =>
        some { relation := rel.str, solution := solution.complexity,
               method := solution.method, explanation := solution.explanation }
      | none => none
    let patternResponse : Option PatternClassificationResponse :=
      if enablePatterns then
        let classification := classify procName recInfo solution.complexity relation
        some { pattern := classification.pattern.value,
               complexity := classification.complexity,
               confidence := classification.confidence,
               explanation := classification.explanation,
               characteristics := classification.characteristics }
      else none
    (procName,
      { name := procName, recursion_info := recursionResponse,
        recurrence_solution := recurrenceResponse, pattern := patternResponse,
        complexity := solution.complexity })

/-- `AnalysisService.analyze` (lexing/parsing are out of scope, the input
is the parsed `Program`; tokens/AST/metadata/tracing payloads omitted):
runs the detector and a freshly constructed `ComplexityAnalyzer` and
builds the response.  The single top-level `except` turns *any* failure
into one `AnalysisError` for the whole request. -/
def serviceAnalyze (prog : Program) (enablePatterns : Bool := true) :
    Except String AnalysisResponse :=
  let recursionInfo := detectorAnalyze prog
  match complexityAnalyze prog recursionInfo freshAnalyzerState with
  | .error e => .error s!"AnalysisError: {e}"
  | .ok cx =>
    .ok
      { success := true,
        complexity :=
          { big_o := cx.big_o, omega := cx.omega, theta := cx.theta,
            explanation := cx.explanation, steps := cx.steps },
        procedures :=
          if cx.per_procedure_analysis.isEmpty then none
          else some (buildProceduresResponse cx.per_procedure_analysis enablePatterns) }

/-- The full pipeline on one AST with a freshly constructed analyzer
carrying mutable state `st` (detector → complexity analysis), as invoked
by the service. -/
def pipelineAnalyze (prog : Program) (st : AnalyzerState) : Except String Complexity :=
  complexityAnalyze prog (detectorAnalyze prog) st

/-! ## Concrete programs used as test inputs -/

/-- The argument `n - k` of a recursive Fibonacci call. -/
def fibCallArg (k : ℤ) : Node := .binop "MINUS" (.var "n") (.num k)

/-- Body of the naive Fibonacci procedure exactly as the parser shapes it
(`if (n <= 1) then return n else return call Fibonacci(n-1) + call
Fibonacci(n-2)`; the recursive call sites are `"call_expr"` nodes, as in
`src/test_fibonacci.py`). -/
def fibBody : Node :=
  .block [
    .ifS (.binop "LE" (.var "n") (.num 1))
      (.block [.ret (some (.var "n"))])
      (some (.block [.ret (some (.binop "PLUS"
        (.callE "Fibonacci" [fibCallArg 1])
        (.callE "Fibonacci" [fibCallArg 2])))]))
  ]

/-- The Fibonacci procedure. -/
def fibProc : Proc := ⟨"Fibonacci", ["n"], fibBody⟩

/-- A program declaring Fibonacci and calling it from the main body. -/
def fibProg : Program :=
  ⟨[fibProc], [.block [.assign (.var "x") (.callE "Fibonacci" [.num 10])]]⟩

/-- The relation the solver actually infers for `fibProc`. -/
def fibRelation : RecurrenceRelation :=
  { a := 0, b := 1, f_complexity := "1", reduction_type := "subtract" }

/-- Body of a binary-search-shaped procedure: a midpoint assignment
`medio = (inicio + fin) DIV 2` and exactly one recursive call site on the
halved range (`medio - 1`), with constant extra work. -/
def bsBody : Node :=
  .block [
    .assign (.var "medio") (.binop "DIV_INT"
      (.binop "PLUS" (.var "inicio") (.var "fin")) (.num 2)),
    .ifS (.binop "LE" (.var "inicio") (.var "fin"))
      (.block [.callS "BusquedaBinaria" [.var "A",
        .binop "MINUS" (.var "medio") (.num 1)]])
      none
  ]

/-- The binary-search procedure (its name even carries the `busqueda`
keyword the classifier looks for). -/
def bsProc : Proc := ⟨"BusquedaBinaria", ["A", "inicio", "fin"], bsBody⟩

/-- A program declaring only the binary-search procedure. -/
def bsProg : Program := ⟨[bsProc], []⟩

/-- The relation the solver infers for `bsProc`. -/
def bsRelation : RecurrenceRelation :=
  { a := 1, b := 2, f_complexity := "1", reduction_type := "divide" }

/-- A procedure whose body contains an `if` without an `else` branch: its
structural analysis raises (`_analyze_if` passes `None` to
`_analyze_statement`). -/
def brokenProc : Proc :=
  ⟨"Rota", [], .block [.ifS (.binop "LT" (.var "x") (.num 3)) (.block []) none]⟩

/-- A well-behaved linearly recursive procedure (`B(n-1)` statement
call). -/
def linearRecProc : Proc :=
  ⟨"B", ["n"], .block [.callS "B" [.binop "MINUS" (.var "n") (.num 1)]]⟩

/-- A program with one broken and one analyzable procedure, both called
from the main body. -/
def failProg : Program :=
  ⟨[brokenProc, linearRecProc], [.callS "Rota" [], .callS "B" []]⟩

/-- A small well-formed program (a `for` loop over a variable bound plus
a recursive call) used to witness determinism. -/
def detWitnessProg : Program :=
  ⟨[linearRecProc],
    [.forS "i" (.num 1) (.var "N") (.block [.assign (.var "x") (.num 1)]),
     .callS "B" [.var "N"]]⟩

/-- A loop body with no early-exit signature and no search `if`. -/
def plainBody : Node := .block [.assign (.var "s") (.num 5)]

/-- A generic loop condition. -/
def plainCond : Node := .binop "LT" (.var "i") (.var "n")

/-- Two mutually recursive procedures with no self-named call site
(indirect recursion through the cycle `P → Q → P`). -/
def indirectProg : Program :=
  ⟨[⟨"P", [], .block [.callS "Q" []]⟩, ⟨"Q", [], .block [.callS "P" []]⟩], []⟩

/-! ## Theorems for the specification claims -/

/-- Helper: the dominance rank is invariant under halving (sympy `x/2`
only scales the coefficient). -/
theorem dominanceRank_symHalf (x : SymExpr) :
    dominanceRank (symHalf x) = dominanceRank x := by
  cases x <;> simp [symHalf, dominanceRank]

/-- C1: the recurrence solver maps the four canonical recurrences to
their closed forms — `T(n) = T(n/2) + O(1) ⇒ Θ(log n)`,
`T(n) = 2T(n/2) + O(n) ⇒ Θ(n log n)`, `T(n) = T(n-1) + O(1) ⇒ Θ(n)` and
`T(n) = 2T(n-1) + O(1) ⇒ Θ(2^n)` — for every constant-degree label `f`
and linear-degree label `g`. -/
theorem C1_canonical_recurrences (f g : String)
    (hf : getPolynomialDegree f = some 0) (hg : getPolynomialDegree g = some 1) :
    ((solve { a := 1, b := 2, f_complexity := f, reduction_type := "divide" }).map
      (fun s => s.complexity) = .ok "O(log(n))") ∧
    ((solve { a := 2, b := 2, f_complexity := g, reduction_type := "divide" }).map
      (fun s => s.complexity) = .ok "O(n * log(n))") ∧
    ((solve { a := 1, b := 1, f_complexity := f, reduction_type := "subtract" }).map
      (fun s => s.complexity) = .ok "O(n)") ∧
    ((solve { a := 2, b := 1, f_complexity := f, reduction_type := "subtract" }).map
      (fun s => s.complexity) = .ok "O(2^n)") := by
  have hl : Nat.log 2 2 = 1 := by rw [Nat.log_eq_one_iff']; omega
  refine ⟨?_, ?_, ?_, ?_⟩ <;>
    simp [solve, solveDivideAndConquer, solveLinearRecursion, hf, hg, logRatio, hl] <;>
    norm_num <;> rfl

/-- C1 witness at the concrete labels `"1"` (constant) and `"n"`
(linear). -/
theorem C1_canonical_recurrences_witness :
    getPolynomialDegree "1" = some 0 ∧ getPolynomialDegree "n" = some 1 ∧
    ((solve { a := 1, b := 2, f_complexity := "1", reduction_type := "divide" }).map
      (fun s => s.complexity) = .ok "O(log(n))") ∧
    ((solve { a := 2, b := 1, f_complexity := "1", reduction_type := "subtract" }).map
      (fun s => s.complexity) = .ok "O(2^n)") :=
  ⟨by decide, by decide,
    (C1_canonical_recurrences "1" "n" (by decide) (by decide)).1,
    (C1_canonical_recurrences "1" "n" (by decide) (by decide)).2.2.2⟩

/-- C2: evaluation of the pipeline at the Fibonacci shape (two
`call_expr` recursive sites on `n-1` and `n-2`).  The solver's
active-call counter matches only `"call"` nodes, so it infers
`T(n) = 0·T(n-1) + O(1)` and solves it to `"O(0^n)"` — not the claimed
`Θ(2^n)` — while the classifier still returns Fibonacci at confidence 1
(its guard accepts any `"^n"` substring). -/
theorem C2_fibonacci_call_expr_bug :
    (inferFromAst "Fibonacci" fibProc (detectorAnalyze fibProg) fibProg.procedures
      = some fibRelation) ∧
    ((solve fibRelation).map (fun s => s.complexity) = .ok "O(0^n)") ∧
    ((classify "Fibonacci" (analyzeProcInfo fibProg.procedures fibProc) "O(0^n)"
        (some fibRelation)).pattern = PatternType.fibonacci) ∧
    ((classify "Fibonacci" (analyzeProcInfo fibProg.procedures fibProc) "O(0^n)"
        (some fibRelation)).confidence = 1) :=
  ⟨by decide, rfl, by decide, rfl⟩

/-- C3: on the Fibonacci body (distinct constant-subtraction call sites
`F(n-1)` and `F(n-2)`) the detector's subproblem inference returns
`"n-1"` (`NMinus1`) — there is no mixed-constant-subtract descriptor in
the code, contradicting the claim (and `test_fibonacci.py`, which expects
`"n-1,n-2"`). -/
theorem C3_fibonacci_subproblem_is_nminus1 :
    inferSubproblemFromProc "Fibonacci" fibBody = "n-1" ∧
    (analyzeProcInfo fibProg.procedures fibProc).subproblem = "n-1" :=
  ⟨by decide, by decide⟩

/-- C4: evaluation at a binary-search-shaped procedure (one recursive
call site on a midpoint-halved range, constant extra work).  Depth
pattern, subproblem and the solved `O(log(n))` come out as claimed, but
the classifier returns PowerRecursive at confidence 0.75 instead of
BinarySearch at 1.0: the BinarySearch guard requires no `"n"` to remain
after deleting `"log"` from the label, which `"O(log(n))"` can never
satisfy. -/
theorem C4_binary_search_misclassified :
    (analyzeProcInfo bsProg.procedures bsProc).depth_pattern = "divide_and_conquer" ∧
    (analyzeProcInfo bsProg.procedures bsProc).subproblem = "n/2" ∧
    (inferFromAst "BusquedaBinaria" bsProc (detectorAnalyze bsProg) bsProg.procedures
      = some bsRelation) ∧
    ((solve bsRelation).map (fun s => s.complexity) = .ok "O(log(n))") ∧
    ((classify "BusquedaBinaria" (analyzeProcInfo bsProg.procedures bsProc) "O(log(n))"
        (some bsRelation)).pattern = PatternType.powerRecursive) ∧
    ((classify "BusquedaBinaria" (analyzeProcInfo bsProg.procedures bsProc) "O(log(n))"
        (some bsRelation)).confidence = 0.75) := by
  have h1 : getPolynomialDegree "1" = some 0 := by decide
  refine ⟨by decide, by decide, by decide, ?_, by decide, rfl⟩
  simp [solve, solveDivideAndConquer, bsRelation, logRatio, h1]
  rfl

/-- C5: a `for` loop with literal integer bounds `s`, `e` and no
early-exit signature in its body yields
`worst = best = average = e − s + 1` and `differs = false`. -/
theorem C5_for_static_bounds (v : String) (s e : ℤ) (body : Node)
    (h : hasEarlyExit body = false) :
    (analyzeLoopCases (.forS v (.num s) (.num e) body)).worst
        = .lit ((e : ℚ) - (s : ℚ) + 1) ∧
    (analyzeLoopCases (.forS v (.num s) (.num e) body)).best
        = .lit ((e : ℚ) - (s : ℚ) + 1) ∧
    (analyzeLoopCases (.forS v (.num s) (.num e) body)).average
        = .lit ((e : ℚ) - (s : ℚ) + 1) ∧
    (analyzeLoopCases (.forS v (.num s) (.num e) body)).differs = false := by
  simp [analyzeLoopCases, analyzeForCases, calculateMaxIterations, h]

/-- C5 witness on `for i = 1 to 10` over a plain body. -/
theorem C5_for_static_bounds_witness :
    hasEarlyExit plainBody = false ∧
    (analyzeLoopCases (.forS "i" (.num 1) (.num 10) plainBody)).worst
        = .lit ((10 : ℚ) - (1 : ℚ) + 1) ∧
    (analyzeLoopCases (.forS "i" (.num 1) (.num 10) plainBody)).differs = false :=
  ⟨by decide, (C5_for_static_bounds "i" 1 10 plainBody (by decide)).1,
    (C5_for_static_bounds "i" 1 10 plainBody (by decide)).2.2.2⟩

/-- C6: every `CaseComplexity` the case analyzer produces for a loop node
(`for`, `while` or `repeat`) satisfies `best ⪯ average ⪯ worst` under the
dominance order. -/
theorem C6_case_triples_ordered (node : Node) (h : isLoopNode node = true) :
    dominanceLe (analyzeLoopCases node).best (analyzeLoopCases node).average ∧
    dominanceLe (analyzeLoopCases node).average (analyzeLoopCases node).worst := by
  cases node <;> simp [isLoopNode] at h
  · rename_i v start stop body
    by_cases he : hasEarlyExit body
    · simp [analyzeLoopCases, analyzeForCases, he, dominanceLe, dominanceRank,
        dominanceRank_symHalf]
    · simp [analyzeLoopCases, analyzeForCases, he, dominanceLe]
  · rename_i cond body
    by_cases hs : isSearchPattern cond body
    · simp [analyzeLoopCases, analyzeWhileCases, hs, dominanceLe, dominanceRank]
    · simp [analyzeLoopCases, analyzeWhileCases, hs, dominanceLe]
  · simp [analyzeLoopCases, analyzeRepeatCases, dominanceLe, dominanceRank]

/-- C6 witness on a `while` loop. -/
theorem C6_case_triples_ordered_witness :
    isLoopNode (.whileS plainCond plainBody) = true ∧
    dominanceLe (analyzeLoopCases (.whileS plainCond plainBody)).best
      (analyzeLoopCases (.whileS plainCond plainBody)).average :=
  ⟨by decide, (C6_case_triples_ordered (.whileS plainCond plainBody) (by decide)).1⟩

/-- C7 counterexample: in a program with one structurally broken
procedure (an `if` without `else`) and one perfectly analyzable
procedure, the service aborts the *whole* analysis with a single
`AnalysisError` — no other procedure's analysis is reported and no
diagnostic placeholder appears. -/
theorem C7_one_failure_aborts_whole_analysis :
    serviceAnalyze failProg =
      .error "AnalysisError: AttributeError: 'NoneType' object has no attribute 'get'" :=
  rfl

/-- C7 amended: any failure inside the complexity analysis makes the
top-level orchestrator fail the entire request with one `AnalysisError`
(partial results exist only for unconstructible recurrences, which get
the heuristic placeholder before the walk). -/
theorem C7_amended_error_propagates (prog : Program) (e : String)
    (h : complexityAnalyze prog (detectorAnalyze prog) freshAnalyzerState = .error e) :
    serviceAnalyze prog = .error s!"AnalysisError: {e}" := by
  simp only [serviceAnalyze, h]

/-- C7 amended witness at the concrete failing program. -/
theorem C7_amended_error_propagates_witness :
    serviceAnalyze failProg =
      .error s!"AnalysisError: AttributeError: 'NoneType' object has no attribute 'get'" :=
  C7_amended_error_propagates failProg
    "AttributeError: 'NoneType' object has no attribute 'get'" rfl

/-- C8 counterexample: a `repeat-until` whose body has no search
signature is *not* the corresponding `while` with `best` forced to 1 —
the while analysis yields `average = n`, `differs = false`, while the
repeat analysis (which never looks at the body) yields `average = n/2`,
`differs = true`. -/
theorem C8_repeat_differs_from_while_beyond_best :
    (analyzeLoopCases (.whileS plainCond plainBody)).average = .sym ∧
    (analyzeLoopCases (.whileS plainCond plainBody)).differs = false ∧
    (analyzeLoopCases (.repeatS [.assign (.var "s") (.num 5)] plainCond)).average
      = .mul (.lit (1/2)) .sym ∧
    (analyzeLoopCases (.repeatS [.assign (.var "s") (.num 5)] plainCond)).differs = true ∧
    (analyzeLoopCases (.repeatS [.assign (.var "s") (.num 5)] plainCond)).average ≠
      (analyzeLoopCases (.whileS plainCond plainBody)).average :=
  ⟨rfl, rfl, rfl, rfl, by
    simp [analyzeLoopCases, analyzeRepeatCases, analyzeWhileCases, isSearchPattern,
      plainCond, plainBody]⟩

/-- C8 amended: the case analyzer returns the same fixed result for
*every* `repeat-until`, regardless of body or condition:
`worst = n`, `best = 1`, `average = n/2`, `differs = true` (no search
heuristic is consulted). -/
theorem C8_amended_repeat_fixed (body : List Node) (cond : Node) :
    analyzeLoopCases (.repeatS body cond) =
      { worst := .sym, best := .lit 1, average := .mul (.lit (1/2)) .sym,
        differs := true,
        explanation := "REPEAT-UNTIL:\n  - Peor caso: O(n)\n  - Mejor caso: O(1) - condición se cumple en primera iteración\n  - Caso promedio: O(n/2) ≈ O(n)" } :=
  rfl

/-- C9: the analysis is deterministic — two `analyze()` runs over the
same program, each on a freshly constructed analyzer (state
`freshAnalyzerState`), produce identical `Complexity` output (all of
`big_o`, `omega`, `theta`, `explanation` and `steps`).  The embedding
threads every piece of mutable analyzer state explicitly, so the result
is a function of the program and the initial state alone. -/
theorem C9_fresh_analysis_deterministic (prog : Program) (s1 s2 : AnalyzerState)
    (h1 : s1 = freshAnalyzerState) (h2 : s2 = freshAnalyzerState) :
    pipelineAnalyze prog s1 = pipelineAnalyze prog s2 := by
  rw [h1, h2]

/-- C9 witness on a concrete program. -/
theorem C9_fresh_analysis_deterministic_witness :
    pipelineAnalyze detWitnessProg freshAnalyzerState =
      pipelineAnalyze detWitnessProg freshAnalyzerState :=
  C9_fresh_analysis_deterministic detWitnessProg freshAnalyzerState freshAnalyzerState
    rfl rfl

mutual
/-- Helper: the exclusivity-unaware detector counter equals the number of
self-named entries in the call list. -/
theorem countRecN_eq_count (p : String) : (nd : Node) →
    countRecN p nd = (findAllCallsN nd).count p
  | .num _ => rfl
  | .boolLit _ => rfl
  | .strLit _ => rfl
  | .var _ => rfl
  | .varDecl _ => rfl
  | .binop _ l r => by
    simp [countRecN, findAllCallsN, List.count_append,
      countRecN_eq_count p l, countRecN_eq_count p r]
  | .callE name args => by
    simp [countRecN, findAllCallsN, List.count_cons, countRecL_eq_count p args]
    by_cases h : name = p <;> simp [h] <;> omega
  | .callS name args => by
    simp [countRecN, findAllCallsN, List.count_cons, countRecL_eq_count p args]
    by_cases h : name = p <;> simp [h] <;> omega
  | .assign t e => by
    simp [countRecN, findAllCallsN, List.count_append,
      countRecN_eq_count p t, countRecN_eq_count p e]
  | .ret none => rfl
  | .ret (some e) => by
    simp [countRecN, findAllCallsN, countRecN_eq_count p e]
  | .block body => by
    simp [countRecN, findAllCallsN, countRecL_eq_count p body]
  | .ifS c t none => by
    simp [countRecN, findAllCallsN, List.count_append,
      countRecN_eq_count p c, countRecN_eq_count p t]
  | .ifS c t (some e) => by
    simp [countRecN, findAllCallsN, List.count_append,
      countRecN_eq_count p c, countRecN_eq_count p t, countRecN_eq_count p e]
    omega
  | .forS _ s e b => by
    simp [countRecN, findAllCallsN, List.count_append,
      countRecN_eq_count p s, countRecN_eq_count p e, countRecN_eq_count p b]
    omega
  | .whileS c b => by
    simp [countRecN, findAllCallsN, List.count_append,
      countRecN_eq_count p c, countRecN_eq_count p b]
  | .repeatS body c => by
    simp [countRecN, findAllCallsN, List.count_append,
      countRecL_eq_count p body, countRecN_eq_count p c]
  | .arrayAccess a i => by
    simp [countRecN, findAllCallsN, List.count_append,
      countRecN_eq_count p a, countRecN_eq_count p i]
  | .lengthE e => by
    simp [countRecN, findAllCallsN, countRecN_eq_count p e]

/-- Helper: list part of `countRecN_eq_count`. -/
theorem countRecL_eq_count (p : String) : (l : List Node) →
    countRecL p l = (findAllCallsL l).count p
  | [] => rfl
  | x :: xs => by
    simp [countRecL, findAllCallsL, List.count_append,
      countRecN_eq_count p x, countRecL_eq_count p xs]
end

mutual
/-- Helper: there are as many self-named call nodes as self-named entries
in the call list. -/
theorem findRecCallNodesN_length (p : String) : (nd : Node) →
    (findRecCallNodesN p nd).length = (findAllCallsN nd).count p
  | .num _ => rfl
  | .boolLit _ => rfl
  | .strLit _ => rfl
  | .var _ => rfl
  | .varDecl _ => rfl
  | .binop _ l r => by
    simp [findRecCallNodesN, findAllCallsN, List.count_append,
      findRecCallNodesN_length p l, findRecCallNodesN_length p r]
  | .callE name args => by
    simp [findRecCallNodesN, findAllCallsN, List.count_cons,
      findRecCallNodesL_length p args]
    by_cases h : name = p <;> simp [h] <;> omega
  | .callS name args => by
    simp [findRecCallNodesN, findAllCallsN, List.count_cons,
      findRecCallNodesL_length p args]
    by_cases h : name = p <;> simp [h] <;> omega
  | .assign t e => by
    simp [findRecCallNodesN, findAllCallsN, List.count_append,
      findRecCallNodesN_length p t, findRecCallNodesN_length p e]
  | .ret none => rfl
  | .ret (some e) => by
    simp [findRecCallNodesN, findAllCallsN, findRecCallNodesN_length p e]
  | .block body => by
    simp [findRecCallNodesN, findAllCallsN, findRecCallNodesL_length p body]
  | .ifS c t none => by
    simp [findRecCallNodesN, findAllCallsN, List.count_append,
      findRecCallNodesN_length p c, findRecCallNodesN_length p t]
  | .ifS c t (some e) => by
    simp [findRecCallNodesN, findAllCallsN, List.count_append,
      findRecCallNodesN_length p c, findRecCallNodesN_length p t,
      findRecCallNodesN_length p e]
  | .forS _ s e b => by
    simp [findRecCallNodesN, findAllCallsN, List.count_append,
      findRecCallNodesN_length p s, findRecCallNodesN_length p e,
      findRecCallNodesN_length p b]
  | .whileS c b => by
    simp [findRecCallNodesN, findAllCallsN, List.count_append,
      findRecCallNodesN_length p c, findRecCallNodesN_length p b]
  | .repeatS body c => by
    simp [findRecCallNodesN, findAllCallsN, List.count_append,
      findRecCallNodesL_length p body, findRecCallNodesN_length p c]
  | .arrayAccess a i => by
    simp [findRecCallNodesN, findAllCallsN, List.count_append,
      findRecCallNodesN_length p a, findRecCallNodesN_length p i]
  | .lengthE e => by
    simp [findRecCallNodesN, findAllCallsN, findRecCallNodesN_length p e]

/-- Helper: list part of `findRecCallNodesN_length`. -/
theorem findRecCallNodesL_length (p : String) : (l : List Node) →
    (findRecCallNodesL p l).length = (findAllCallsL l).count p
  | [] => rfl
  | x :: xs => by
    simp [findRecCallNodesL, findAllCallsL, List.count_append,
      findRecCallNodesN_length p x, findRecCallNodesL_length p xs]
end

/-- C10: for every procedure with no call site naming itself (in
particular every indirectly recursive one), the detector leaves
`call_count = 0` and assigns `depth_pattern = "unknown"` and
`subproblem = "unknown"`, because the depth and subproblem inference scan
only self-named call sites. -/
theorem C10_no_self_call_site_fields (procs : List Proc) (p : Proc)
    (h : (findAllCallsN p.body).count p.name = 0) :
    (analyzeProcInfo procs p).call_count = 0 ∧
    (analyzeProcInfo procs p).depth_pattern = "unknown" ∧
    (analyzeProcInfo procs p).subproblem = "unknown" := by
  have hc : countRecN p.name p.body = 0 := (countRecN_eq_count p.name p.body).trans h
  have hn : findRecCallNodesN p.name p.body = [] :=
    List.length_eq_zero.mp ((findRecCallNodesN_length p.name p.body).trans h)
  unfold analyzeProcInfo
  simp only [h]
  split <;> simp [hc, hn, inferSubproblemFromProc] <;> split <;>
    simp [hc, hn, inferSubproblemFromProc]

/-- C10 witness on the genuinely indirectly recursive procedure `P` of
the two-procedure cycle `P → Q → P`. -/
theorem C10_no_self_call_site_fields_witness :
    (findAllCallsN (Node.block [.callS "Q" []])).count "P" = 0 ∧
    (analyzeProcInfo indirectProg.procedures ⟨"P", [], .block [.callS "Q" []]⟩).call_count
      = 0 ∧
    (analyzeProcInfo indirectProg.procedures
      ⟨"P", [], .block [.callS "Q" []]⟩).depth_pattern = "unknown" :=
  ⟨by decide,
    (C10_no_self_call_site_fields indirectProg.procedures
      ⟨"P", [], .block [.callS "Q" []]⟩ (by decide)).1,
    (C10_no_self_call_site_fields indirectProg.procedures
      ⟨"P", [], .block [.callS "Q" []]⟩ (by decide)).2.1⟩

end AlgoAnalyzer
